import Mathlib

/-!
Verification development for the SafeAccessPortal repository.

The TypeScript sources are shallowly embedded: TS strings become `List Char`
(`Str`), nullable / possibly-undefined values become `Option`, the relational
store becomes explicit lists of row structures, and the submission route's
BEGIN/COMMIT/ROLLBACK discipline becomes an interpreter that applies the
queued writes to a transaction copy and publishes it only on commit.
-/

set_option maxRecDepth 10000

/-- TS strings are embedded as lists of characters. -/
abbrev Str := List Char

/-- ASCII lower-casing of one character (what a case-insensitive regex
such as `/ncr/i` uses on ASCII input). -/
def lowerChar (c : Char) : Char :=
  if 'A' ≤ c ∧ c ≤ 'Z' then Char.ofNat (c.toNat + 32) else c

/-- Lower-case a string character-wise. -/
def strLower (s : Str) : Str := s.map lowerChar

/-- All suffixes of a string, longest first (including the empty suffix). -/
def strTails : Str → List Str
  | [] => [[]]
  | c :: rest => (c :: rest) :: strTails rest

/-- `containsSub needle hay`: `needle` occurs as a contiguous substring of
`hay` (embedding of a fixed-literal regex test such as `/ncr/.test(s)`). -/
def containsSub (needle hay : Str) : Bool :=
  (strTails hay).any (fun t => needle.isPrefixOf t)

/-- Case-insensitive substring test, embedding `/pat/i.test(s)` for an
ASCII-literal pattern. -/
def containsCI (needle hay : Str) : Bool :=
  containsSub (strLower needle) (strLower hay)

/-- Embedding of JavaScript `String.prototype.trim` (whitespace stripping
at both ends). -/
def trimStr (s : Str) : Str :=
  ((s.dropWhile Char.isWhitespace).reverse.dropWhile Char.isWhitespace).reverse

/-- Embedding of JavaScript `String.prototype.split` with a one-character
separator: `''` splits to `['']`, separators delimit (possibly empty)
fields. -/
def splitOnChar (sep : Char) : Str → List Str
  | [] => [[]]
  | c :: rest =>
    if c = sep then [] :: splitOnChar sep rest
    else
      match splitOnChar sep rest with
      | [] => [[c]]
      | h :: t => (c :: h) :: t

/-- Embedding of JavaScript `Array.prototype.join` with a one-character
separator. -/
def joinSep (sep : Char) : List Str → Str
  | [] => []
  | [x] => x
  | x :: y :: ys => x ++ sep :: joinSep sep (y :: ys)

/-- Decimal rendering of a natural number (embedding of JS number→string
interpolation for non-negative integers). -/
def natStr (n : Nat) : Str := (Nat.repr n).data

/-- `SelectOption` from `src/types/index.ts`: an internal code (`value`)
paired with its human-readable display text (`label`). -/
structure SelectOption where
  value : Str
  label : Str
deriving DecidableEq, Repr

/-- Shorthand constructor used to transcribe the option tables. -/
def so (v l : String) : SelectOption := ⟨v.data, l.data⟩

/-- `WORK_LOCATIONS` from `src/lib/config.ts`. -/
def WORK_LOCATIONS : List SelectOption :=
  [so "delivery_workshop_shunting" "交车车间落车调车区",
   so "assembly_workshop" "总成车间",
   so "old_debugging" "老调试",
   so "new_debugging" "新调试",
   so "emu_debugging_base" "动车组调试基地",
   so "maglev_workshop" "磁浮厂房",
   so "outside_depot" "库外"]

/-- `WORK_TYPES` from `src/lib/config.ts`. -/
def WORK_TYPES : List SelectOption :=
  [so "quality_rework" "质量返工",
   so "furniture_maintenance" "家具维修及活动策划",
   so "tooling_work" "工装工具相关作业",
   so "field_research" "现场调研",
   so "infrastructure_construction" "基建施工",
   so "production_equipment_maintenance" "生产设备维修",
   so "office_equipment_maintenance" "办公设备设施维修",
   so "vehicle_maintenance" "车辆检修作业",
   so "component_assembly" "部件装配作业",
   so "vehicle_debugging_cooperation" "配合车辆调试作业"]

/-- `WORK_CONTENT_OPTIONS` from `src/lib/config.ts`: work-type code →
its own value/label list. -/
def WORK_CONTENT_OPTIONS : List (Str × List SelectOption) :=
  [("quality_rework".data,
    [so "incoming_material_rework" "来料不合格项返工",
     so "q30_rework" "Q30不合格项返工",
     so "q40_rework" "Q40不合格项返工",
     so "psi_rework" "PSI不合格项返工",
     so "owner_rework" "业主不合格项返工",
     so "ncr_rework" "NCR返工"]),
   ("furniture_maintenance".data,
    [so "furniture_repair" "家具维修",
     so "activity_planning" "活动策划安排"]),
   ("tooling_work".data,
    [so "tool_delivery" "工具送货",
     so "tool_maintenance" "工具维修",
     so "tool_measurement" "工具计量",
     so "tooling_delivery" "工装送货",
     so "tooling_verification" "工装验证",
     so "tooling_modification" "工装改造维修",
     so "tooling_after_sales" "工装售后维护"]),
   ("field_research".data,
    [so "visit_research" "参观调研",
     so "interview_research" "采访调研",
     so "process_technical_research" "工艺技术调研",
     so "quality_technical_research" "质量技术调研",
     so "equipment_facility_research" "设备设施调研"]),
   ("infrastructure_construction".data,
    [so "building_maintenance" "建筑物及附属设施维护维修"]),
   ("production_equipment_maintenance".data,
    [so "equipment_routine_maintenance" "设备常规维护保养及故障维修"]),
   ("office_equipment_maintenance".data,
    [so "computer" "电脑",
     so "printer_audio" "打印机",
     so "audio" "音响"]),
   ("vehicle_maintenance".data,
    [so "vehicle_maintenance_work" "车辆检修作业"]),
   ("component_assembly".data,
    [so "component_assembly_work" "部件装配作业"]),
   ("vehicle_debugging_cooperation".data,
    [so "static_debugging_cooperation" "配合静调作业",
     so "dynamic_debugging_cooperation" "配合动调作业"])]

/-- `DANGER_TYPES` from `src/lib/config.ts`. -/
def DANGER_TYPES : List SelectOption :=
  [so "vehicle_debugging" "配合车辆静、动态调试作业",
   so "high_altitude" "登高作业",
   so "hot_work" "动火作业",
   so "chemical_use" "危化品使用",
   so "metal_cutting" "金属切割作业",
   so "lifting" "吊装作业",
   so "temporary_electrical" "临时用电作业",
   so "confined_space" "有限空间作业",
   so "cross_operation" "交叉作业",
   so "edge_work" "临边作业",
   so "none" "无"]

/-- `WORK_BASIS_OPTIONS` from `src/lib/config.ts`. -/
def WORK_BASIS_OPTIONS : List SelectOption :=
  [so "ncr" "NCR",
   so "nonconformity" "不合格项",
   so "design_change" "设计变更"]

/-- `getOptionLabel` from `src/lib/config.ts`: code → label, identity
fallback on an unknown code. -/
def getOptionLabel (options : List SelectOption) (value : Str) : Str :=
  match options.find? (fun opt => opt.value == value) with
  | some opt => opt.label
  | none => value

/-- `getOptionValue` from `src/lib/config.ts`: label → code, empty-string
fallback when no label matches. -/
def getOptionValue (options : List SelectOption) (label : Str) : Str :=
  match options.find? (fun opt => opt.label == label) with
  | some opt => opt.value
  | none => []

/-- `WORK_CONTENT_OPTIONS[workType] || []` from `src/lib/config.ts`. -/
def workContentOptionsFor (workType : Str) : List SelectOption :=
  match WORK_CONTENT_OPTIONS.find? (fun kv => kv.1 == workType) with
  | some kv => kv.2
  | none => []

/-- `OptionConverter.workLocation.toLabel` from `src/lib/config.ts`. -/
def OptionConverter.workLocation.toLabel (value : Str) : Str :=
  getOptionLabel WORK_LOCATIONS value

/-- `OptionConverter.workLocation.toValue` from `src/lib/config.ts`. -/
def OptionConverter.workLocation.toValue (label : Str) : Str :=
  getOptionValue WORK_LOCATIONS label

/-- `OptionConverter.workType.toLabel` from `src/lib/config.ts`. -/
def OptionConverter.workType.toLabel (value : Str) : Str :=
  getOptionLabel WORK_TYPES value

/-- `OptionConverter.workType.toValue` from `src/lib/config.ts`. -/
def OptionConverter.workType.toValue (label : Str) : Str :=
  getOptionValue WORK_TYPES label

/-- `OptionConverter.workContent.toLabel` from `src/lib/config.ts`
(two-level lookup scoped by the work-type code). -/
def OptionConverter.workContent.toLabel (workType value : Str) : Str :=
  getOptionLabel (workContentOptionsFor workType) value

/-- `OptionConverter.workContent.toValue` from `src/lib/config.ts`. -/
def OptionConverter.workContent.toValue (workType label : Str) : Str :=
  getOptionValue (workContentOptionsFor workType) label

/-- `OptionConverter.dangerTypes.toLabel` from `src/lib/config.ts`:
an empty selection renders as the literal none label `无`, otherwise the
per-code labels are joined with the full-width comma `、`. -/
def OptionConverter.dangerTypes.toLabel (values : List Str) : Str :=
  if values.isEmpty then "无".data
  else joinSep '、' (values.map (fun value => getOptionLabel DANGER_TYPES value))

/-- `OptionConverter.dangerTypes.toValue` from `src/lib/config.ts`:
the empty string or the literal `无` maps to the empty code list,
otherwise the display string is split on `、`, each token is trimmed and
mapped through `getOptionValue`, and empty (unmatched) results are
dropped. -/
def OptionConverter.dangerTypes.toValue (label : Str) : List Str :=
  if label = [] ∨ label = "无".data then []
  else ((splitOnChar '、' label).map
          (fun l => getOptionValue DANGER_TYPES (trimStr l))).filter
        (fun v => !v.isEmpty)

/-- `OptionConverter.workBasis.toLabel` from `src/lib/config.ts`. -/
def OptionConverter.workBasis.toLabel (value : Str) : Str :=
  getOptionLabel WORK_BASIS_OPTIONS value

/-- `OptionConverter.workBasis.toValue` from `src/lib/config.ts`. -/
def OptionConverter.workBasis.toValue (label : Str) : Str :=
  getOptionValue WORK_BASIS_OPTIONS label

/-- All five option collections of the Option Registry, the work-content
collection contributing one option set per work-type code. -/
def allOptionSets : List (List SelectOption) :=
  [WORK_LOCATIONS, WORK_TYPES, DANGER_TYPES, WORK_BASIS_OPTIONS] ++
    WORK_CONTENT_OPTIONS.map (fun kv => kv.2)

/-! ### Generic facts about the one-character split/join pair -/

/-- Defining equation of `splitOnChar` on a cons cell. -/
theorem splitOnChar_cons (sep c : Char) (rest : Str) :
    splitOnChar sep (c :: rest) =
      if c = sep then [] :: splitOnChar sep rest
      else
        match splitOnChar sep rest with
        | [] => [[c]]
        | h :: t => (c :: h) :: t := rfl

/-- Splitting never returns an empty list of fields. -/
theorem splitOnChar_ne_nil (sep : Char) (s : Str) : splitOnChar sep s ≠ [] := by
  induction s with
  | nil => simp [splitOnChar]
  | cons c rest ih =>
    rw [splitOnChar_cons]
    by_cases hc : c = sep
    · simp [hc]
    · rw [if_neg hc]
      cases hsp : splitOnChar sep rest <;> simp

/-- A string free of the separator splits into the singleton field list. -/
theorem splitOnChar_of_not_mem (sep : Char) (s : Str) (h : sep ∉ s) :
    splitOnChar sep s = [s] := by
  induction s with
  | nil => simp [splitOnChar]
  | cons c rest ih =>
    have hc : c ≠ sep := fun hh => h (hh ▸ List.mem_cons_self c rest)
    have hrest : sep ∉ rest := fun hh => h (List.mem_cons_of_mem c hh)
    rw [splitOnChar_cons, if_neg hc, ih hrest]

/-- Splitting a string of the form `x ++ sep :: t` with `sep ∉ x` peels off
the field `x`. -/
theorem splitOnChar_append (sep : Char) (x t : Str) (h : sep ∉ x) :
    splitOnChar sep (x ++ sep :: t) = x :: splitOnChar sep t := by
  induction x with
  | nil =>
    rw [List.nil_append, splitOnChar_cons, if_pos rfl]
  | cons c xs ih =>
    have hc : c ≠ sep := fun hh => h (hh ▸ List.mem_cons_self c xs)
    have hxs : sep ∉ xs := fun hh => h (List.mem_cons_of_mem c hh)
    rw [List.cons_append, splitOnChar_cons, if_neg hc, ih hxs]

/-- Splitting inverts joining for a non-empty field list none of whose
fields contains the separator. -/
theorem splitOnChar_joinSep (sep : Char) (l : List Str) (hne : l ≠ [])
    (h : ∀ s ∈ l, sep ∉ s) : splitOnChar sep (joinSep sep l) = l := by
  induction l with
  | nil => exact absurd rfl hne
  | cons x xs ih =>
    cases xs with
    | nil =>
      simpa [joinSep] using splitOnChar_of_not_mem sep x (h x (by simp))
    | cons y ys =>
      have hx : sep ∉ x := h x (by simp)
      have hrec : ∀ s ∈ y :: ys, sep ∉ s := fun s hs => h s (by simp [hs])
      simp only [joinSep]
      rw [splitOnChar_append sep x _ hx, ih (by simp) hrec]

/-- C2: the lookups of the Option Registry round-trip on every defined
option of every option set: `getOptionValue` after `getOptionLabel`
recovers the code, and `getOptionLabel` after `getOptionValue` recovers
the label. -/
theorem option_sets_round_trip :
    ∀ opts ∈ allOptionSets, ∀ opt ∈ opts,
      getOptionValue opts (getOptionLabel opts opt.value) = opt.value ∧
      getOptionLabel opts (getOptionValue opts opt.label) = opt.label := by
  decide

/-- Witness for C2: the round trip evaluated on the concrete work-location
code `old_debugging` and its label `老调试`. -/
theorem option_sets_round_trip_witness :
    WORK_LOCATIONS ∈ allOptionSets ∧
    so "old_debugging" "老调试" ∈ WORK_LOCATIONS ∧
    getOptionValue WORK_LOCATIONS
      (getOptionLabel WORK_LOCATIONS "old_debugging".data) = "old_debugging".data ∧
    getOptionLabel WORK_LOCATIONS
      (getOptionValue WORK_LOCATIONS "老调试".data) = "老调试".data :=
  ⟨by decide, by decide,
   (option_sets_round_trip WORK_LOCATIONS (by decide)
      (so "old_debugging" "老调试") (by decide)).1,
   (option_sets_round_trip WORK_LOCATIONS (by decide)
      (so "old_debugging" "老调试") (by decide)).2⟩

/-- The hazard-type codes whose labels survive the `、`-join/split round
trip: every defined code except `vehicle_debugging`, whose label itself
contains the separator `、`. -/
def dangerRoundTripCodes : List Str :=
  ["high_altitude".data, "hot_work".data, "chemical_use".data,
   "metal_cutting".data, "lifting".data, "temporary_electrical".data,
   "confined_space".data, "cross_operation".data, "edge_work".data,
   "none".data]

/-- Per-code facts about the hazard labels used in the round-trip proof. -/
theorem danger_code_facts : ∀ c ∈ dangerRoundTripCodes,
    getOptionValue DANGER_TYPES (trimStr (getOptionLabel DANGER_TYPES c)) = c ∧
    '、' ∉ getOptionLabel DANGER_TYPES c ∧
    getOptionLabel DANGER_TYPES c ≠ [] ∧ c ≠ [] ∧
    (getOptionLabel DANGER_TYPES c = "无".data → c = "none".data) := by
  decide

/-- Mapping each recovered label through trim and `getOptionValue` and
dropping empty results recovers the original code list. -/
theorem danger_recover (l : List Str) (h : ∀ c ∈ l, c ∈ dangerRoundTripCodes) :
    (((l.map (fun c => getOptionLabel DANGER_TYPES c)).map
        (fun s => getOptionValue DANGER_TYPES (trimStr s))).filter
      (fun v => !v.isEmpty)) = l := by
  induction l with
  | nil => simp
  | cons c cs ih =>
    obtain ⟨h1, _, _, h4, _⟩ := danger_code_facts c (h c (by simp))
    have hcs : ∀ x ∈ cs, x ∈ dangerRoundTripCodes := fun x hx => h x (by simp [hx])
    have hcne : (!c.isEmpty) = true := by
      cases c with
      | nil => exact absurd rfl h4
      | cons a as => rfl
    simp only [List.map_cons, List.filter_cons, h1, hcne, if_pos]
    rw [ih hcs]

/-- C3: counterexample — the defined hazard code `vehicle_debugging` is a
non-empty selection (distinct from the `none` selection) whose display
string does NOT convert back to the same set of codes: its label
`配合车辆静、动态调试作业` contains the join separator `、`, so the
round trip returns the empty code list. -/
theorem danger_round_trip_vehicle_debugging_cex :
    "vehicle_debugging".data ∈ DANGER_TYPES.map (fun opt => opt.value) ∧
    (["vehicle_debugging".data] : List Str) ≠ [] ∧
    (["vehicle_debugging".data] : List Str) ≠ ["none".data] ∧
    OptionConverter.dangerTypes.toValue
      (OptionConverter.dangerTypes.toLabel ["vehicle_debugging".data]) = [] ∧
    OptionConverter.dangerTypes.toValue
      (OptionConverter.dangerTypes.toLabel ["vehicle_debugging".data]) ≠
      ["vehicle_debugging".data] := by
  decide

/-- C3 (amended): for every non-empty list of defined hazard codes that
avoids `vehicle_debugging` (whose label contains the separator `、`) and
is not exactly the single `none` selection, converting to the display
string and back yields the same code list; the `none` selection
round-trips to the empty code list, and the empty code list converts to
the `无` label, which converts back to the empty code list. -/
theorem danger_list_round_trip_amended :
    (∀ l : List Str, l ≠ [] → (∀ c ∈ l, c ∈ dangerRoundTripCodes) →
        l ≠ ["none".data] →
        OptionConverter.dangerTypes.toValue
          (OptionConverter.dangerTypes.toLabel l) = l) ∧
    OptionConverter.dangerTypes.toValue
      (OptionConverter.dangerTypes.toLabel ["none".data]) = [] ∧
    OptionConverter.dangerTypes.toLabel [] = "无".data ∧
    OptionConverter.dangerTypes.toValue ("无".data) = [] := by
  refine ⟨?_, by decide, by decide, by decide⟩
  intro l hne hmem hnone
  have key : ∀ joined : Str, joined ≠ [] → joined ≠ "无".data →
      splitOnChar '、' joined = l.map (fun c => getOptionLabel DANGER_TYPES c) →
      OptionConverter.dangerTypes.toValue joined = l := by
    intro joined h1 h2 h3
    unfold OptionConverter.dangerTypes.toValue
    rw [if_neg (by simp [h1, h2]), h3]
    exact danger_recover l hmem
  have htoLabel : OptionConverter.dangerTypes.toLabel l =
      joinSep '、' (l.map (fun c => getOptionLabel DANGER_TYPES c)) := by
    unfold OptionConverter.dangerTypes.toLabel
    cases l with
    | nil => exact absurd rfl hne
    | cons x xs => rfl
  cases l with
  | nil => exact absurd rfl hne
  | cons x xs =>
    cases xs with
    | nil =>
      obtain ⟨f1, f2, f3, f4, f5⟩ := danger_code_facts x (hmem x (by simp))
      rw [htoLabel]
      apply key
      · simpa [joinSep] using f3
      · simp only [List.map_cons, List.map_nil, joinSep]
        intro hlab
        exact hnone (by rw [f5 hlab])
      · simp only [List.map_cons, List.map_nil, joinSep]
        exact splitOnChar_of_not_mem '、' _ f2
    | cons y ys =>
      have hnosep : ∀ s ∈ (x :: y :: ys).map
          (fun c => getOptionLabel DANGER_TYPES c), '、' ∉ s := by
        intro s hs
        obtain ⟨c, hc, rfl⟩ := List.mem_map.mp hs
        exact (danger_code_facts c (hmem c hc)).2.1
      have hsepmem : '、' ∈ joinSep '、'
          ((x :: y :: ys).map (fun c => getOptionLabel DANGER_TYPES c)) := by
        simp only [List.map_cons, joinSep]
        exact List.mem_append_right _ (List.mem_cons_self _ _)
      rw [htoLabel]
      apply key
      · exact List.ne_nil_of_mem hsepmem
      · intro hbad
        rw [hbad] at hsepmem
        exact absurd hsepmem (by decide)
      · exact splitOnChar_joinSep '、' _ (by simp) hnosep

/-- Witness for C3 (amended): the concrete hazard selection
`[high_altitude, lifting, none]` satisfies the hypotheses and round-trips
to itself. -/
theorem danger_list_round_trip_amended_witness :
    (["high_altitude".data, "lifting".data, "none".data] : List Str) ≠ [] ∧
    (∀ c ∈ (["high_altitude".data, "lifting".data, "none".data] : List Str),
      c ∈ dangerRoundTripCodes) ∧
    (["high_altitude".data, "lifting".data, "none".data] : List Str) ≠
      ["none".data] ∧
    OptionConverter.dangerTypes.toValue (OptionConverter.dangerTypes.toLabel
      ["high_altitude".data, "lifting".data, "none".data]) =
      ["high_altitude".data, "lifting".data, "none".data] :=
  ⟨by decide, by decide, by decide,
   danger_list_round_trip_amended.1 _ (by decide) (by decide) (by decide)⟩

/-! ### Validation helpers from `src/lib/utils.ts` -/

/-- `validatePhoneNumber` from `src/lib/utils.ts`: the regex
`^1[3-9]\d{9}$` (11 digits, leading `1`, second digit 3–9). -/
def validatePhoneNumber (phone : Str) : Bool :=
  match phone with
  | '1' :: d :: rest =>
    ('3' ≤ d && d ≤ '9') && (rest.length == 9 && rest.all Char.isDigit)
  | _ => false

/-- `validateIdNumber` from `src/lib/utils.ts`: the 18-character national
id regex `^[1-9]\d{5}(18|19|20)\d{2}((0[1-9])|(1[0-2]))(([0-2][1-9])|10|20|30|31)\d{3}[0-9Xx]$`. -/
def validateIdNumber (idNumber : Str) : Bool :=
  match idNumber with
  | [r1, r2, r3, r4, r5, r6, c1, c2, y1, y2, m1, m2, d1, d2, q1, q2, q3, k] =>
    ('1' ≤ r1 && r1 ≤ '9') &&
    [r2, r3, r4, r5, r6].all Char.isDigit &&
    ((c1 == '1' && (c2 == '8' || c2 == '9')) || (c1 == '2' && c2 == '0')) &&
    (y1.isDigit && y2.isDigit) &&
    ((m1 == '0' && ('1' ≤ m2 && m2 ≤ '9')) ||
      (m1 == '1' && ('0' ≤ m2 && m2 ≤ '2'))) &&
    ((('0' ≤ d1 && d1 ≤ '2') && ('1' ≤ d2 && d2 ≤ '9')) ||
      (d1 == '1' && d2 == '0') || (d1 == '2' && d2 == '0') ||
      (d1 == '3' && d2 == '0') || (d1 == '3' && d2 == '1')) &&
    [q1, q2, q3].all Char.isDigit &&
    (k.isDigit || k == 'X' || k == 'x')
  | _ => false

/-- `validateEmployeeNumber` from `src/lib/utils.ts`: the regex `^\d{12}$`. -/
def validateEmployeeNumber (employeeNumber : Str) : Bool :=
  employeeNumber.length == 12 && employeeNumber.all Char.isDigit

/-- `validateBasisNumber` from `src/lib/utils.ts`. The `workBasis`
argument is `Option Str` because `validateForm` passes the possibly
undefined `formData.workBasis` through; a JS `switch` on `undefined`
falls to the `default` arm. -/
def validateBasisNumber (basisNumber : Str) (workBasis : Option Str) : Bool :=
  if basisNumber.isEmpty || (trimStr basisNumber).isEmpty then false
  else
    let trimmedNumber := trimStr basisNumber
    if workBasis = some "ncr".data then containsCI "ncr".data trimmedNumber
    else if workBasis = some "nonconformity".data then
      decide (0 < trimmedNumber.length)
    else if workBasis = some "design_change".data then
      containsCI "cm".data trimmedNumber
    else decide (6 ≤ trimmedNumber.length)

/-- `generateApplicationNumber` from `src/lib/utils.ts`: the derived
application number is the concatenation id number ++ phone number ++
decimal `Date.now()` timestamp; the wall-clock millisecond reading is the
explicit `timestampMs` parameter. -/
def generateApplicationNumber (idNumber phoneNumber : Str) (timestampMs : Nat) : Str :=
  idNumber ++ phoneNumber ++ natStr timestampMs

/-- Numeric value of a decimal digit character. -/
def digitVal (c : Char) : Nat := c.toNat - '0'.toNat

/-- Date-only parsing of a `YYYY-MM-DD` string into an ordinal key
`y*10000 + m*100 + d` (chronological order coincides with numeric order).
Strings not of this shape behave like a JS Invalid Date (`none`). -/
def parseDateYMD (s : Str) : Option Nat :=
  match s with
  | [y1, y2, y3, y4, '-', m1, m2, '-', d1, d2] =>
    if [y1, y2, y3, y4, m1, m2, d1, d2].all Char.isDigit then
      let m := digitVal m1 * 10 + digitVal m2
      let d := digitVal d1 * 10 + digitVal d2
      if 1 ≤ m ∧ m ≤ 12 ∧ 1 ≤ d ∧ d ≤ 31 then
        some (((digitVal y1 * 1000 + digitVal y2 * 100 + digitVal y3 * 10 +
          digitVal y4) * 100 + m) * 100 + d)
      else none
    else none
  | _ => none

/-- `validateFutureDate` from `src/lib/utils.ts`: the input date must be
today or later, comparing date-only keys; `today` is the explicit
midnight-of-today key (the source reads the wall clock). An unparsable
date compares like NaN: the check fails. -/
def validateFutureDate (today : Nat) (dateString : Str) : Bool :=
  match parseDateYMD dateString with
  | some k => decide (today ≤ k)
  | none => false

/-! ### The candidate submission shape and `validateForm` -/

/-- One accompanying person as submitted (possibly missing fields). -/
structure PersonData where
  name : Option Str
  idNumber : Option Str
  phoneNumber : Option Str
deriving DecidableEq, Repr

/-- The candidate submission (`formData`), each field `Option` to model
JS `undefined`/`null`/missing members. -/
structure FormData where
  applicationNumber : Option Str
  name : Option Str
  idNumber : Option Str
  companyName : Option Str
  phoneNumber : Option Str
  startDate : Option Str
  startTime : Option Str
  workingHours : Option Str
  workLocation : Option Str
  workType : Option Str
  isProductWork : Option Bool
  projectName : Option Str
  vehicleNumber : Option Str
  trackPosition : Option Str
  workContent : Option Str
  workBasis : Option Str
  basisNumber : Option Str
  dangerTypes : Option (List Str)
  notifierName : Option Str
  notifierNumber : Option Str
  notifierDepartment : Option Str
  accompanyingCount : Option Int
  accompanyingPersons : Option (List PersonData)
deriving DecidableEq, Repr

/-- JS truthiness of a possibly-missing string (`!x` is the negation). -/
def truthyS : Option Str → Bool
  | some s => !s.isEmpty
  | none => false

/-- JS truthiness of `x?.trim()` for a possibly-missing string. -/
def trimTruthy : Option Str → Bool
  | some s => !(trimStr s).isEmpty
  | none => false

/-- JS `formData.accompanyingCount > 0` (false when the field is
missing, `undefined > 0` being false). -/
def acPositive : Option Int → Bool
  | some n => decide (0 < n)
  | none => false

/-- The validator's result: field-keyed error messages, in the order the
source assigns them (all keys the source can assign are distinct, so the
ordered pair list is a faithful embedding of the JS error object). -/
abbrev FormErrors := List (Str × Str)

/-- `validateForm`, applicant-name rule: `!formData.name?.trim()`. -/
def checkName (fd : FormData) : FormErrors :=
  if !trimTruthy fd.name then [("name".data, "姓名不能为空".data)] else []

/-- `validateForm`, national-id rule: missing/empty, then format. -/
def checkIdNumber (fd : FormData) : FormErrors :=
  match fd.idNumber with
  | none => [("idNumber".data, "身份证号不能为空".data)]
  | some s =>
    if s.isEmpty then [("idNumber".data, "身份证号不能为空".data)]
    else if !validateIdNumber s then [("idNumber".data, "身份证号格式不正确".data)]
    else []

/-- `validateForm`, company rule: `!formData.companyName` (no trim). -/
def checkCompanyName (fd : FormData) : FormErrors :=
  if !truthyS fd.companyName then [("companyName".data, "公司名称不能为空".data)] else []

/-- `validateForm`, phone rule: missing/empty, then format. -/
def checkPhoneNumber (fd : FormData) : FormErrors :=
  match fd.phoneNumber with
  | none => [("phoneNumber".data, "联系电话不能为空".data)]
  | some s =>
    if s.isEmpty then [("phoneNumber".data, "联系电话不能为空".data)]
    else if !validatePhoneNumber s then
      [("phoneNumber".data, "手机号码格式不正确".data)]
    else []

/-- `validateForm`, start-date rule: missing/empty, then not before
today. -/
def checkStartDate (today : Nat) (fd : FormData) : FormErrors :=
  match fd.startDate with
  | none => [("startDate".data, "计划开工日期不能为空".data)]
  | some s =>
    if s.isEmpty then [("startDate".data, "计划开工日期不能为空".data)]
    else if !validateFutureDate today s then
      [("startDate".data, "开工日期不能早于今天".data)]
    else []

/-- `validateForm`, start-time rule: `!formData.startTime`. -/
def checkStartTime (fd : FormData) : FormErrors :=
  if !truthyS fd.startTime then [("startTime".data, "开工开始时间不能为空".data)] else []

/-- `validateForm`, working-hours rule: `!formData.workingHours`. -/
def checkWorkingHours (fd : FormData) : FormErrors :=
  if !truthyS fd.workingHours then [("workingHours".data, "工作时长不能为空".data)] else []

/-- `validateForm`, work-location rule: `!formData.workLocation`. -/
def checkWorkLocation (fd : FormData) : FormErrors :=
  if !truthyS fd.workLocation then [("workLocation".data, "作业地点不能为空".data)] else []

/-- `validateForm`, work-type rule: `!formData.workType`. -/
def checkWorkType (fd : FormData) : FormErrors :=
  if !truthyS fd.workType then [("workType".data, "作业类型不能为空".data)] else []

/-- `validateForm`, work-content rule: `!formData.workContent?.trim()`. -/
def checkWorkContent (fd : FormData) : FormErrors :=
  if !trimTruthy fd.workContent then [("workContent".data, "作业内容不能为空".data)] else []

/-- `validateForm`, conditional quality-rework block, active only when
`formData.workType === 'quality_rework'`: project name, vehicle number,
track position, work basis, and basis number (emptiness then format
against the chosen basis code, the possibly-undefined
`formData.workBasis` being passed straight into `validateBasisNumber`). -/
def checkQualityRework (fd : FormData) : FormErrors :=
  if fd.workType = some "quality_rework".data then
    (if !truthyS fd.projectName then [("projectName".data, "项目名称不能为空".data)] else []) ++
    (if !trimTruthy fd.vehicleNumber then [("vehicleNumber".data, "车号不能为空".data)] else []) ++
    (if !trimTruthy fd.trackPosition then [("trackPosition".data, "车道/台位不能为空".data)] else []) ++
    (if !truthyS fd.workBasis then [("workBasis".data, "作业依据不能为空".data)] else []) ++
    (match fd.basisNumber with
     | none => [("basisNumber".data, "依据编号不能为空".data)]
     | some s =>
       if (trimStr s).isEmpty then [("basisNumber".data, "依据编号不能为空".data)]
       else if !validateBasisNumber s fd.workBasis then
         [("basisNumber".data, "依据编号格式不正确".data)]
       else [])
  else []

/-- `validateForm`, notifier-name rule: `!formData.notifierName`. -/
def checkNotifierName (fd : FormData) : FormErrors :=
  if !truthyS fd.notifierName then
    [("notifierName".data, "对接人姓名不能为空".data)]
  else []

/-- `validateForm`, notifier employee-number rule: missing/empty, then
the 12-digit format. -/
def checkNotifierNumber (fd : FormData) : FormErrors :=
  match fd.notifierNumber with
  | none => [("notifierNumber".data, "对接人工号不能为空".data)]
  | some s =>
    if s.isEmpty then [("notifierNumber".data, "对接人工号不能为空".data)]
    else if !validateEmployeeNumber s then
      [("notifierNumber".data, "对接人工号格式不正确（12位数字）".data)]
    else []

/-- `validateForm`, notifier-department rule:
`!formData.notifierDepartment?.trim()`. -/
def checkNotifierDepartment (fd : FormData) : FormErrors :=
  if !trimTruthy fd.notifierDepartment then
    [("notifierDepartment".data, "所属部门不能为空".data)]
  else []

/-- `validateForm`, hazard-type rule: the list must exist and be
non-empty. -/
def checkDangerTypes (fd : FormData) : FormErrors :=
  match fd.dangerTypes with
  | none => [("dangerTypes".data, "危险作业类型不能为空，请至少选择一项".data)]
  | some l =>
    if l.isEmpty then [("dangerTypes".data, "危险作业类型不能为空，请至少选择一项".data)]
    else []

/-- Per-index error key `accompanyingPerson_${index}_<suffix>`. -/
def personKey (index : Nat) (suffix : String) : Str :=
  "accompanyingPerson_".data ++ natStr index ++ suffix.data

/-- `validateForm`, per-person checks inside the `forEach` (name
required, id format, phone format, keyed by index). -/
def checkPerson (index : Nat) (p : PersonData) : FormErrors :=
  (if !trimTruthy p.name then
    [(personKey index "_name",
      "随行人员".data ++ natStr (index + 1) ++ "姓名不能为空".data)]
   else []) ++
  (match p.idNumber with
   | none => [(personKey index "_idNumber",
       "随行人员".data ++ natStr (index + 1) ++ "身份证号不能为空".data)]
   | some s =>
     if s.isEmpty then [(personKey index "_idNumber",
       "随行人员".data ++ natStr (index + 1) ++ "身份证号不能为空".data)]
     else if !validateIdNumber s then [(personKey index "_idNumber",
       "随行人员".data ++ natStr (index + 1) ++ "身份证号格式不正确".data)]
     else []) ++
  (match p.phoneNumber with
   | none => [(personKey index "_phoneNumber",
       "随行人员".data ++ natStr (index + 1) ++ "联系电话不能为空".data)]
   | some s =>
     if s.isEmpty then [(personKey index "_phoneNumber",
       "随行人员".data ++ natStr (index + 1) ++ "联系电话不能为空".data)]
     else if !validatePhoneNumber s then [(personKey index "_phoneNumber",
       "随行人员".data ++ natStr (index + 1) ++ "手机号码格式不正确".data)]
     else [])

/-- `validateForm`, accompanying-person block: runs only when the
declared count is positive; the person array must exist with matching
length, and then each person is checked per index. -/
def checkAccompanying (fd : FormData) : FormErrors :=
  if acPositive fd.accompanyingCount then
    match fd.accompanyingPersons with
    | none => [("accompanyingPersons".data, "随行人员信息不完整".data)]
    | some ps =>
      if (ps.length : Int) ≠ fd.accompanyingCount.getD 0 then
        [("accompanyingPersons".data, "随行人员信息不完整".data)]
      else (ps.enum.map (fun ip => checkPerson ip.1 ip.2)).flatten
  else []

/-- `validateForm` from `src/lib/utils.ts`: the rules run independently,
in source order, each appending its field-keyed messages; `today` is the
date-only key of the wall-clock day the source reads. The function is
total on every input shape by construction (missing/null fields are
`none`). -/
def validateForm (today : Nat) (fd : FormData) : FormErrors :=
  checkName fd ++ checkIdNumber fd ++ checkCompanyName fd ++
  checkPhoneNumber fd ++ checkStartDate today fd ++ checkStartTime fd ++
  checkWorkingHours fd ++ checkWorkLocation fd ++ checkWorkType fd ++
  checkWorkContent fd ++ checkQualityRework fd ++ checkNotifierName fd ++
  checkNotifierNumber fd ++ checkNotifierDepartment fd ++
  checkDangerTypes fd ++ checkAccompanying fd

/-- A concrete fully valid quality-rework candidate used by witnesses and
counterexamples (its basis number `NCR-1` is valid under basis `ncr` but
shorter than 6 characters). -/
def sampleForm : FormData where
  applicationNumber := some "APP1".data
  name := some "张三".data
  idNumber := some "110101199001011234".data
  companyName := some "示例公司A".data
  phoneNumber := some "13800138000".data
  startDate := some "2024-06-01".data
  startTime := some "morning".data
  workingHours := some "half_day".data
  workLocation := some "old_debugging".data
  workType := some "quality_rework".data
  isProductWork := some false
  projectName := some "项目Alpha".data
  vehicleNumber := some "V001".data
  trackPosition := some "T1".data
  workContent := some "ncr_rework".data
  workBasis := some "ncr".data
  basisNumber := some "NCR-1".data
  dangerTypes := some ["high_altitude".data]
  notifierName := some "李四".data
  notifierNumber := some "123456789012".data
  notifierDepartment := some "安全部".data
  accompanyingCount := some 0
  accompanyingPersons := some []

/-- The date-only key for 2024-01-01, a concrete "today" under which
`sampleForm`'s start date lies in the future. -/
def sampleToday : Nat := 20240101

/-- C5: basis-number validation accepts a trimmed non-empty number iff:
under basis `ncr` it contains `ncr` case-insensitively; under
`nonconformity` always; under `design_change` it contains `cm`
case-insensitively; under any other basis it has length at least 6 —
together with the concrete acceptance/rejection examples. -/
theorem basis_number_validation_spec :
    (∀ s : Str, ∀ wb : Option Str, trimStr s = s → s ≠ [] →
      (validateBasisNumber s wb = true ↔
        (if wb = some "ncr".data then containsCI "ncr".data s = true
         else if wb = some "nonconformity".data then True
         else if wb = some "design_change".data then containsCI "cm".data s = true
         else 6 ≤ s.length))) ∧
    validateBasisNumber "NCR-2024-001".data (some "ncr".data) = true ∧
    validateBasisNumber "myNCRnum".data (some "ncr".data) = true ∧
    validateBasisNumber "REWORK-001".data (some "ncr".data) = false ∧
    validateBasisNumber "CM2024".data (some "design_change".data) = true ∧
    validateBasisNumber "CHANGE2024".data (some "design_change".data) = false := by
  refine ⟨?_, by decide, by decide, by decide, by decide, by decide⟩
  intro s wb htrim hne
  cases s with
  | nil => exact absurd rfl hne
  | cons a as =>
    unfold validateBasisNumber
    rw [htrim]
    simp only [List.isEmpty_cons, Bool.or_self, Bool.false_eq_true, if_false]
    split_ifs <;> simp [decide_eq_true_eq]

/-- Witness for C5: the general clause evaluated at the concrete trimmed
non-empty number `NCR-2024-001` under basis `ncr`. -/
theorem basis_number_validation_spec_witness :
    trimStr "NCR-2024-001".data = "NCR-2024-001".data ∧
    "NCR-2024-001".data ≠ [] ∧
    (validateBasisNumber "NCR-2024-001".data (some "ncr".data) = true ↔
      (if (some "ncr".data : Option Str) = some "ncr".data then
        containsCI "ncr".data "NCR-2024-001".data = true
       else if (some "ncr".data : Option Str) = some "nonconformity".data then True
       else if (some "ncr".data : Option Str) = some "design_change".data then
        containsCI "cm".data "NCR-2024-001".data = true
       else 6 ≤ "NCR-2024-001".data.length)) :=
  ⟨by decide, by decide,
   basis_number_validation_spec.1 "NCR-2024-001".data (some "ncr".data)
     (by decide) (by decide)⟩

/-- C4: counterexample — `sampleForm` is a fully valid quality-rework
candidate, yet omitting only `workBasis` produces errors on TWO fields
(`workBasis` and `basisNumber`): with the basis code gone, the JS switch
falls to its default arm, which demands length ≥ 6 of the (still valid
under `ncr`) 5-character basis number `NCR-1`. -/
theorem quality_rework_omit_workBasis_cex :
    validateForm sampleToday sampleForm = [] ∧
    sampleForm.workType = some "quality_rework".data ∧
    (validateForm sampleToday { sampleForm with workBasis := none }).map
      Prod.fst = ["workBasis".data, "basisNumber".data] := by
  decide

/-- A conditional branch emitting one error collapses to `[]` only when
its guard is false. -/
theorem guardTrue_of_nil {e : Str × Str} {b : Bool}
    (h : (if !b then [e] else []) = []) : b = true := by
  cases b with
  | false => simp at h
  | true => rfl

/-- A missing string is JS-falsy. -/
theorem truthyS_none : truthyS none = false := rfl

/-- A missing string is JS-falsy after optional trimming. -/
theorem trimTruthy_none : trimTruthy none = false := rfl

/-- C4 (amended): for a valid quality-rework candidate, omitting
`projectName`, `vehicleNumber`, `trackPosition`, or `basisNumber` each
produces a validation error for exactly that field and no other; omitting
`workBasis` produces the `workBasis` error alone when the trimmed basis
number has length at least 6, and otherwise additionally the
`basisNumber` format error. -/
theorem quality_rework_conditional_amended :
    ∀ (today : Nat) (fd : FormData),
      fd.workType = some "quality_rework".data →
      validateForm today fd = [] →
      validateForm today { fd with projectName := none } =
        [("projectName".data, "项目名称不能为空".data)] ∧
      validateForm today { fd with vehicleNumber := none } =
        [("vehicleNumber".data, "车号不能为空".data)] ∧
      validateForm today { fd with trackPosition := none } =
        [("trackPosition".data, "车道/台位不能为空".data)] ∧
      validateForm today { fd with basisNumber := none } =
        [("basisNumber".data, "依据编号不能为空".data)] ∧
      validateForm today { fd with workBasis := none } =
        (if 6 ≤ (trimStr (fd.basisNumber.getD [])).length then
          [("workBasis".data, "作业依据不能为空".data)]
         else
          [("workBasis".data, "作业依据不能为空".data),
           ("basisNumber".data, "依据编号格式不正确".data)]) := by
  intro today fd hwt hvalid
  simp only [validateForm, List.append_eq_nil, and_assoc] at hvalid
  obtain ⟨h1, h2, h3, h4, h5, h6, h7, h8, h9, h10, h11, h12, h13, h14, h15,
    h16⟩ := hvalid
  rw [checkQualityRework, if_pos hwt] at h11
  simp only [List.append_eq_nil, and_assoc] at h11
  obtain ⟨hp, hv, ht, hwb, hbn⟩ := h11
  have hp2 : truthyS fd.projectName = true := guardTrue_of_nil hp
  have hv2 : trimTruthy fd.vehicleNumber = true := guardTrue_of_nil hv
  have ht2 : trimTruthy fd.trackPosition = true := guardTrue_of_nil ht
  have hwb2 : truthyS fd.workBasis = true := guardTrue_of_nil hwb
  obtain ⟨s, hbn0, hts, hvb⟩ : ∃ s, fd.basisNumber = some s ∧
      (trimStr s).isEmpty = false ∧ validateBasisNumber s fd.workBasis = true := by
    cases hb : fd.basisNumber with
    | none => rw [hb] at hbn; simp at hbn
    | some s =>
      rw [hb] at hbn
      have hbn2 : (if (trimStr s).isEmpty then
          [(("basisNumber".data : Str), ("依据编号不能为空".data : Str))]
        else if !validateBasisNumber s fd.workBasis then
          [(("basisNumber".data : Str), ("依据编号格式不正确".data : Str))]
        else []) = [] := hbn
      cases hts : (trimStr s).isEmpty with
      | true => rw [hts] at hbn2; simp at hbn2
      | false =>
        rw [hts] at hbn2
        cases hvb : validateBasisNumber s fd.workBasis with
        | true => exact ⟨s, rfl, hts, hvb⟩
        | false => rw [hvb] at hbn2; simp at hbn2
  refine ⟨?_, ?_, ?_, ?_, ?_⟩
  · show checkName fd ++ checkIdNumber fd ++ checkCompanyName fd ++
      checkPhoneNumber fd ++ checkStartDate today fd ++ checkStartTime fd ++
      checkWorkingHours fd ++ checkWorkLocation fd ++ checkWorkType fd ++
      checkWorkContent fd ++ checkQualityRework { fd with projectName := none } ++
      checkNotifierName fd ++ checkNotifierNumber fd ++
      checkNotifierDepartment fd ++ checkDangerTypes fd ++
      checkAccompanying fd = _
    rw [h1, h2, h3, h4, h5, h6, h7, h8, h9, h10, h12, h13, h14, h15, h16]
    simp only [List.append_nil, List.nil_append]
    show (if fd.workType = some "quality_rework".data then
        (if !truthyS (none : Option Str) then
          [("projectName".data, "项目名称不能为空".data)] else []) ++
        (if !trimTruthy fd.vehicleNumber then
          [("vehicleNumber".data, "车号不能为空".data)] else []) ++
        (if !trimTruthy fd.trackPosition then
          [("trackPosition".data, "车道/台位不能为空".data)] else []) ++
        (if !truthyS fd.workBasis then
          [("workBasis".data, "作业依据不能为空".data)] else []) ++
        (match fd.basisNumber with
         | none => [("basisNumber".data, "依据编号不能为空".data)]
         | some s =>
           if (trimStr s).isEmpty then [("basisNumber".data, "依据编号不能为空".data)]
           else if !validateBasisNumber s fd.workBasis then
             [("basisNumber".data, "依据编号格式不正确".data)]
           else [])
      else []) = _
    rw [if_pos hwt, hbn0]
    simp [hv2, ht2, hwb2, hts, hvb, truthyS_none]
  · show checkName fd ++ checkIdNumber fd ++ checkCompanyName fd ++
      checkPhoneNumber fd ++ checkStartDate today fd ++ checkStartTime fd ++
      checkWorkingHours fd ++ checkWorkLocation fd ++ checkWorkType fd ++
      checkWorkContent fd ++ checkQualityRework { fd with vehicleNumber := none } ++
      checkNotifierName fd ++ checkNotifierNumber fd ++
      checkNotifierDepartment fd ++ checkDangerTypes fd ++
      checkAccompanying fd = _
    rw [h1, h2, h3, h4, h5, h6, h7, h8, h9, h10, h12, h13, h14, h15, h16]
    simp only [List.append_nil, List.nil_append]
    show (if fd.workType = some "quality_rework".data then
        (if !truthyS fd.projectName then
          [("projectName".data, "项目名称不能为空".data)] else []) ++
        (if !trimTruthy (none : Option Str) then
          [("vehicleNumber".data, "车号不能为空".data)] else []) ++
        (if !trimTruthy fd.trackPosition then
          [("trackPosition".data, "车道/台位不能为空".data)] else []) ++
        (if !truthyS fd.workBasis then
          [("workBasis".data, "作业依据不能为空".data)] else []) ++
        (match fd.basisNumber with
         | none => [("basisNumber".data, "依据编号不能为空".data)]
         | some s =>
           if (trimStr s).isEmpty then [("basisNumber".data, "依据编号不能为空".data)]
           else if !validateBasisNumber s fd.workBasis then
             [("basisNumber".data, "依据编号格式不正确".data)]
           else [])
      else []) = _
    rw [if_pos hwt, hbn0]
    simp [hp2, ht2, hwb2, hts, hvb, trimTruthy_none]
  · show checkName fd ++ checkIdNumber fd ++ checkCompanyName fd ++
      checkPhoneNumber fd ++ checkStartDate today fd ++ checkStartTime fd ++
      checkWorkingHours fd ++ checkWorkLocation fd ++ checkWorkType fd ++
      checkWorkContent fd ++ checkQualityRework { fd with trackPosition := none } ++
      checkNotifierName fd ++ checkNotifierNumber fd ++
      checkNotifierDepartment fd ++ checkDangerTypes fd ++
      checkAccompanying fd = _
    rw [h1, h2, h3, h4, h5, h6, h7, h8, h9, h10, h12, h13, h14, h15, h16]
    simp only [List.append_nil, List.nil_append]
    show (if fd.workType = some "quality_rework".data then
        (if !truthyS fd.projectName then
          [("projectName".data, "项目名称不能为空".data)] else []) ++
        (if !trimTruthy fd.vehicleNumber then
          [("vehicleNumber".data, "车号不能为空".data)] else []) ++
        (if !trimTruthy (none : Option Str) then
          [("trackPosition".data, "车道/台位不能为空".data)] else []) ++
        (if !truthyS fd.workBasis then
          [("workBasis".data, "作业依据不能为空".data)] else []) ++
        (match fd.basisNumber with
         | none => [("basisNumber".data, "依据编号不能为空".data)]
         | some s =>
           if (trimStr s).isEmpty then [("basisNumber".data, "依据编号不能为空".data)]
           else if !validateBasisNumber s fd.workBasis then
             [("basisNumber".data, "依据编号格式不正确".data)]
           else [])
      else []) = _
    rw [if_pos hwt, hbn0]
    simp [hp2, hv2, hwb2, hts, hvb, trimTruthy_none]
  · show checkName fd ++ checkIdNumber fd ++ checkCompanyName fd ++
      checkPhoneNumber fd ++ checkStartDate today fd ++ checkStartTime fd ++
      checkWorkingHours fd ++ checkWorkLocation fd ++ checkWorkType fd ++
      checkWorkContent fd ++ checkQualityRework { fd with basisNumber := none } ++
      checkNotifierName fd ++ checkNotifierNumber fd ++
      checkNotifierDepartment fd ++ checkDangerTypes fd ++
      checkAccompanying fd = _
    rw [h1, h2, h3, h4, h5, h6, h7, h8, h9, h10, h12, h13, h14, h15, h16]
    simp only [List.append_nil, List.nil_append]
    show (if fd.workType = some "quality_rework".data then
        (if !truthyS fd.projectName then
          [("projectName".data, "项目名称不能为空".data)] else []) ++
        (if !trimTruthy fd.vehicleNumber then
          [("vehicleNumber".data, "车号不能为空".data)] else []) ++
        (if !trimTruthy fd.trackPosition then
          [("trackPosition".data, "车道/台位不能为空".data)] else []) ++
        (if !truthyS fd.workBasis then
          [("workBasis".data, "作业依据不能为空".data)] else []) ++
        (match (none : Option Str) with
         | none => [("basisNumber".data, "依据编号不能为空".data)]
         | some s =>
           if (trimStr s).isEmpty then [("basisNumber".data, "依据编号不能为空".data)]
           else if !validateBasisNumber s fd.workBasis then
             [("basisNumber".data, "依据编号格式不正确".data)]
           else [])
      else []) = _
    rw [if_pos hwt]
    simp [hp2, hv2, ht2, hwb2]
  · have hsne : s.isEmpty = false := by
      cases s with
      | nil => simp [trimStr] at hts
      | cons a as => rfl
    have hvbnone : validateBasisNumber s none =
        decide (6 ≤ (trimStr s).length) := by
      unfold validateBasisNumber
      simp [hsne, hts]
    show checkName fd ++ checkIdNumber fd ++ checkCompanyName fd ++
      checkPhoneNumber fd ++ checkStartDate today fd ++ checkStartTime fd ++
      checkWorkingHours fd ++ checkWorkLocation fd ++ checkWorkType fd ++
      checkWorkContent fd ++ checkQualityRework { fd with workBasis := none } ++
      checkNotifierName fd ++ checkNotifierNumber fd ++
      checkNotifierDepartment fd ++ checkDangerTypes fd ++
      checkAccompanying fd = _
    rw [h1, h2, h3, h4, h5, h6, h7, h8, h9, h10, h12, h13, h14, h15, h16]
    simp only [List.append_nil, List.nil_append]
    show (if fd.workType = some "quality_rework".data then
        (if !truthyS fd.projectName then
          [("projectName".data, "项目名称不能为空".data)] else []) ++
        (if !trimTruthy fd.vehicleNumber then
          [("vehicleNumber".data, "车号不能为空".data)] else []) ++
        (if !trimTruthy fd.trackPosition then
          [("trackPosition".data, "车道/台位不能为空".data)] else []) ++
        (if !truthyS (none : Option Str) then
          [("workBasis".data, "作业依据不能为空".data)] else []) ++
        (match fd.basisNumber with
         | none => [("basisNumber".data, "依据编号不能为空".data)]
         | some s =>
           if (trimStr s).isEmpty then [("basisNumber".data, "依据编号不能为空".data)]
           else if !validateBasisNumber s (none : Option Str) then
             [("basisNumber".data, "依据编号格式不正确".data)]
           else [])
      else []) = _
    rw [if_pos hwt, hbn0]
    cases hdec : decide (6 ≤ (trimStr s).length) with
    | true =>
      have h6 : 6 ≤ (trimStr s).length := of_decide_eq_true hdec
      simp [hp2, hv2, ht2, hts, truthyS_none, hvbnone, hdec, h6]
    | false =>
      have h6 : ¬ 6 ≤ (trimStr s).length := of_decide_eq_false hdec
      simp [hp2, hv2, ht2, hts, truthyS_none, hvbnone, hdec, h6]

/-- Witness for C4 (amended): `sampleForm` satisfies the hypotheses, and
omitting its `projectName` yields exactly the `projectName` error. -/
theorem quality_rework_conditional_amended_witness :
    sampleForm.workType = some "quality_rework".data ∧
    validateForm sampleToday sampleForm = [] ∧
    validateForm sampleToday { sampleForm with projectName := none } =
      [("projectName".data, "项目名称不能为空".data)] :=
  ⟨by decide, by decide,
   (quality_rework_conditional_amended sampleToday sampleForm (by decide)
      (by decide)).1⟩

/-- C6: `validateForm` is a total function on every input shape (all
fields may be missing/null, embedded as `none`), and every missing
required field — applicant name, id number, company, phone, start date,
start time, work location, work type, work content, the three notifier
fields, and the hazard-type list — appears as a key of the returned
error map. -/
theorem validateForm_missing_required_keys :
    ∀ (today : Nat) (fd : FormData),
      (fd.name = none → "name".data ∈ (validateForm today fd).map Prod.fst) ∧
      (fd.idNumber = none →
        "idNumber".data ∈ (validateForm today fd).map Prod.fst) ∧
      (fd.companyName = none →
        "companyName".data ∈ (validateForm today fd).map Prod.fst) ∧
      (fd.phoneNumber = none →
        "phoneNumber".data ∈ (validateForm today fd).map Prod.fst) ∧
      (fd.startDate = none →
        "startDate".data ∈ (validateForm today fd).map Prod.fst) ∧
      (fd.startTime = none →
        "startTime".data ∈ (validateForm today fd).map Prod.fst) ∧
      (fd.workLocation = none →
        "workLocation".data ∈ (validateForm today fd).map Prod.fst) ∧
      (fd.workType = none →
        "workType".data ∈ (validateForm today fd).map Prod.fst) ∧
      (fd.workContent = none →
        "workContent".data ∈ (validateForm today fd).map Prod.fst) ∧
      (fd.notifierName = none →
        "notifierName".data ∈ (validateForm today fd).map Prod.fst) ∧
      (fd.notifierNumber = none →
        "notifierNumber".data ∈ (validateForm today fd).map Prod.fst) ∧
      (fd.notifierDepartment = none →
        "notifierDepartment".data ∈ (validateForm today fd).map Prod.fst) ∧
      (fd.dangerTypes = none →
        "dangerTypes".data ∈ (validateForm today fd).map Prod.fst) := by
  intro today fd
  refine ⟨?_, ?_, ?_, ?_, ?_, ?_, ?_, ?_, ?_, ?_, ?_, ?_, ?_⟩ <;> intro h
  · simp [validateForm, checkName, h, trimTruthy_none]
  · simp [validateForm, checkIdNumber, h]
  · simp [validateForm, checkCompanyName, h, truthyS_none]
  · simp [validateForm, checkPhoneNumber, h]
  · simp [validateForm, checkStartDate, h]
  · simp [validateForm, checkStartTime, h, truthyS_none]
  · simp [validateForm, checkWorkLocation, h, truthyS_none]
  · simp [validateForm, checkWorkType, h, truthyS_none]
  · simp [validateForm, checkWorkContent, h, trimTruthy_none]
  · simp [validateForm, checkNotifierName, h, truthyS_none]
  · simp [validateForm, checkNotifierNumber, h]
  · simp [validateForm, checkNotifierDepartment, h, trimTruthy_none]
  · simp [validateForm, checkDangerTypes, h]

/-- The degenerate candidate with every field missing. -/
def emptyForm : FormData where
  applicationNumber := none
  name := none
  idNumber := none
  companyName := none
  phoneNumber := none
  startDate := none
  startTime := none
  workingHours := none
  workLocation := none
  workType := none
  isProductWork := none
  projectName := none
  vehicleNumber := none
  trackPosition := none
  workContent := none
  workBasis := none
  basisNumber := none
  dangerTypes := none
  notifierName := none
  notifierNumber := none
  notifierDepartment := none
  accompanyingCount := none
  accompanyingPersons := none

/-- Witness for C6: on the all-missing candidate every listed required
field key is present in the error map. -/
theorem validateForm_missing_required_keys_witness :
    emptyForm.name = none ∧
    "name".data ∈ (validateForm 0 emptyForm).map Prod.fst ∧
    "idNumber".data ∈ (validateForm 0 emptyForm).map Prod.fst ∧
    "companyName".data ∈ (validateForm 0 emptyForm).map Prod.fst ∧
    "phoneNumber".data ∈ (validateForm 0 emptyForm).map Prod.fst ∧
    "startDate".data ∈ (validateForm 0 emptyForm).map Prod.fst ∧
    "startTime".data ∈ (validateForm 0 emptyForm).map Prod.fst ∧
    "workLocation".data ∈ (validateForm 0 emptyForm).map Prod.fst ∧
    "workType".data ∈ (validateForm 0 emptyForm).map Prod.fst ∧
    "workContent".data ∈ (validateForm 0 emptyForm).map Prod.fst ∧
    "notifierName".data ∈ (validateForm 0 emptyForm).map Prod.fst ∧
    "notifierNumber".data ∈ (validateForm 0 emptyForm).map Prod.fst ∧
    "notifierDepartment".data ∈ (validateForm 0 emptyForm).map Prod.fst ∧
    "dangerTypes".data ∈ (validateForm 0 emptyForm).map Prod.fst :=
  ⟨rfl,
   (validateForm_missing_required_keys 0 emptyForm).1 rfl,
   (validateForm_missing_required_keys 0 emptyForm).2.1 rfl,
   (validateForm_missing_required_keys 0 emptyForm).2.2.1 rfl,
   (validateForm_missing_required_keys 0 emptyForm).2.2.2.1 rfl,
   (validateForm_missing_required_keys 0 emptyForm).2.2.2.2.1 rfl,
   (validateForm_missing_required_keys 0 emptyForm).2.2.2.2.2.1 rfl,
   (validateForm_missing_required_keys 0 emptyForm).2.2.2.2.2.2.1 rfl,
   (validateForm_missing_required_keys 0 emptyForm).2.2.2.2.2.2.2.1 rfl,
   (validateForm_missing_required_keys 0 emptyForm).2.2.2.2.2.2.2.2.1 rfl,
   (validateForm_missing_required_keys 0 emptyForm).2.2.2.2.2.2.2.2.2.1 rfl,
   (validateForm_missing_required_keys 0 emptyForm).2.2.2.2.2.2.2.2.2.2.1 rfl,
   (validateForm_missing_required_keys 0 emptyForm).2.2.2.2.2.2.2.2.2.2.2.1 rfl,
   (validateForm_missing_required_keys 0 emptyForm).2.2.2.2.2.2.2.2.2.2.2.2 rfl⟩

/-! ### Relational store and the submission route
(`POST /api/safety/submit`) -/

/-- JS `a || b` for a possibly-missing string with a string default
(the empty string is falsy). -/
def orDefault (a : Option Str) (b : Str) : Str :=
  match a with
  | some s => if s.isEmpty then b else s
  | none => b

/-- JS `a || b` for two possibly-missing strings. -/
def orElseStr (a b : Option Str) : Option Str :=
  match a with
  | some s => if s.isEmpty then b else some s
  | none => b

/-- A `users` row. -/
structure UserRow where
  id : Nat
  phone : Option Str
  name : Option Str
deriving DecidableEq, Repr

/-- A `safe_forms` row, one field per column of the primary INSERT. -/
structure FormRow where
  id : Nat
  applicationNumber : Option Str
  applicantName : Option Str
  applicantId : Option Str
  applicantPhone : Option Str
  applicantEmployeeNumber : Str
  applicantDepartment : Str
  workCompany : Option Str
  workProject : Str
  workLocation : Option Str
  workType : Str
  workContent : Option Str
  workStartDate : Option Str
  workStartHour : Nat
  workEndHour : Nat
  isProductWork : Bool
  productName : Option Str
  productSpecification : Option Str
  workBasis : Option Str
  basisNumber : Option Str
  dangerTypes : Option (List Str)
  notifierName : Option Str
  notifierEmployeeNumber : Str
  notifierDepartment : Str
  notifierPhone : Option Str
  userId : Nat
deriving DecidableEq, Repr

/-- An `accompanying_persons` row. -/
structure PersonRow where
  id : Nat
  formId : Nat
  name : Option Str
  idNumber : Option Str
  phone : Option Str
  employeeNumber : Str
  department : Str
deriving DecidableEq, Repr

/-- A `safeformhead` sync row (label-converted projection). -/
structure SyncHeadRow where
  applicationNumber : Option Str
  name : Option Str
  idNumber : Option Str
  companyName : Option Str
  phoneNumber : Option Str
  submitTime : Str
  startDate : Option Str
  startTime : Str
  workingHours : Str
  workLocation : Option Str
  workType : Str
  isProductWork : Bool
  projectName : Str
  vehicleNumber : Str
  trackPosition : Str
  workContent : Str
  workBasis : Str
  basisNumber : Str
  dangerTypes : Str
  notifierName : Option Str
  notifierNumber : Str
  notifierDepartment : Str
  accompaningCount : Nat
deriving DecidableEq, Repr

/-- An `accompaningpersons` sync row. -/
structure SyncPersonRow where
  formApplicationNumber : Option Str
  name : Option Str
  idNumber : Option Str
  phoneNumber : Option Str
deriving DecidableEq, Repr

/-- The relational store: the five tables plus serial id counters. -/
structure DB where
  users : List UserRow
  forms : List FormRow
  persons : List PersonRow
  syncHeads : List SyncHeadRow
  syncPersons : List SyncPersonRow
  nextUserId : Nat
  nextFormId : Nat
  nextPersonId : Nat
deriving DecidableEq, Repr

/-- `SELECT id FROM users WHERE phone = $1` (first match). -/
def userIdOf (db : DB) (phone : Option Str) : Nat :=
  match db.users.find? (fun u => u.phone == phone) with
  | some u => u.id
  | none => 0

/-- The find-or-create user step: `INSERT INTO users (phone, name)` only
when the SELECT returned no row. -/
def insertUserIfAbsent (phone name : Option Str) (db : DB) : DB :=
  if db.users.any (fun u => u.phone == phone) then db
  else { db with users := db.users ++ [⟨db.nextUserId, phone, name⟩],
                 nextUserId := db.nextUserId + 1 }

/-- The clock hour of the derived work start:
`morning → 08:00, afternoon → 14:00, else → 20:00`. -/
def startClockHour (fd : FormData) : Nat :=
  if fd.startTime = some "morning".data then 8
  else if fd.startTime = some "afternoon".data then 14
  else 20

/-- The derived work duration in hours:
`half_day → 4, one_day → 8, default → 4`. -/
def hoursToAdd (fd : FormData) : Nat :=
  if fd.workingHours = some "half_day".data then 4
  else if fd.workingHours = some "one_day".data then 8
  else 4

/-- The `safe_forms` row built from the candidate (the `formValues`
array of the source, in column order; the start/end timestamps are kept
as the date string plus derived clock hours, the end hour exceeding 24
when the duration crosses midnight exactly as JS `setHours` rolls over). -/
def mkFormRow (fd : FormData) (userId formId : Nat) : FormRow where
  id := formId
  applicationNumber := fd.applicationNumber
  applicantName := fd.name
  applicantId := fd.idNumber
  applicantPhone := fd.phoneNumber
  applicantEmployeeNumber := []
  applicantDepartment := []
  workCompany := fd.companyName
  workProject := orDefault fd.projectName []
  workLocation := fd.workLocation
  workType := orDefault fd.workType "quality_rework".data
  workContent := fd.workContent
  workStartDate := fd.startDate
  workStartHour := startClockHour fd
  workEndHour := startClockHour fd + hoursToAdd fd
  isProductWork := fd.isProductWork.getD false
  productName :=
    match fd.vehicleNumber with
    | some s => if s.isEmpty then none else some s
    | none => none
  productSpecification :=
    match fd.trackPosition with
    | some s => if s.isEmpty then none else some s
    | none => none
  workBasis :=
    match fd.workBasis with
    | some s => if s.isEmpty then none else some s
    | none => none
  basisNumber :=
    match fd.basisNumber with
    | some s => if s.isEmpty then none else some s
    | none => none
  dangerTypes :=
    match fd.dangerTypes with
    | some l => if 0 < l.length then some l else none
    | none => none
  notifierName := orElseStr fd.notifierName fd.name
  notifierEmployeeNumber := orDefault fd.notifierNumber []
  notifierDepartment := orDefault fd.notifierDepartment []
  notifierPhone := fd.phoneNumber
  userId := userId

/-- `INSERT INTO safe_forms ... RETURNING id`. -/
def insertForm (fd : FormData) (db : DB) : DB :=
  { db with
    forms := db.forms ++ [mkFormRow fd (userIdOf db fd.phoneNumber) db.nextFormId],
    nextFormId := db.nextFormId + 1 }

/-- The `RETURNING id` of the primary insert, embedded as the id of the
most recently inserted `safe_forms` row carrying the application
number. -/
def formIdOf (db : DB) (appNum : Option Str) : Nat :=
  match db.forms.reverse.find? (fun r => r.applicationNumber == appNum) with
  | some r => r.id
  | none => 0

/-- `INSERT INTO accompanying_persons (form_id, name, id_number, phone,
employee_number, department)` for one person. -/
def insertPerson (p : PersonData) (fd : FormData) (db : DB) : DB :=
  { db with
    persons := db.persons ++
      [⟨db.nextPersonId, formIdOf db fd.applicationNumber,
        p.name, p.idNumber, p.phoneNumber, [], []⟩],
    nextPersonId := db.nextPersonId + 1 }

/-- The `workingHoursMap` of the submission route. -/
def WORKING_HOURS_MAP : List (Str × Str) :=
  [("half_day".data, "半天".data), ("one_day".data, "一天".data),
   ("one_half_day".data, "一天半".data), ("two_days".data, "两天".data),
   ("two_half_days".data, "两天半".data), ("three_days".data, "三天".data)]

/-- `workingHoursMap[formData.workingHours || 'half_day'] ||
formData.workingHours || '半天'`. -/
def workingHoursDisplay (fd : FormData) : Str :=
  match WORKING_HOURS_MAP.find?
      (fun kv => kv.1 == orDefault fd.workingHours "half_day".data) with
  | some kv => kv.2
  | none => orDefault fd.workingHours "半天".data

/-- The `startTimeMap` of the submission route. -/
def START_TIME_MAP : List (Str × Str) :=
  [("morning".data, "上午".data), ("afternoon".data, "下午".data)]

/-- `startTimeMap[formData.startTime || 'morning'] ||
formData.startTime || '上午'`. -/
def startTimeDisplay (fd : FormData) : Str :=
  match START_TIME_MAP.find?
      (fun kv => kv.1 == orDefault fd.startTime "morning".data) with
  | some kv => kv.2
  | none => orDefault fd.startTime "上午".data

/-- The sync-table hazard string: a leading ASCII comma, then the labels
joined with ASCII commas, or `,无` for an empty/absent list (this path
uses `,`, unlike the `、` of `OptionConverter.dangerTypes`). -/
def dangerTypesChineseStr (fd : FormData) : Str :=
  let arr := fd.dangerTypes.getD []
  if 0 < arr.length then
    ',' :: joinSep ',' (arr.map (fun v => getOptionLabel DANGER_TYPES v))
  else ",无".data

/-- The `safeformhead` sync row (the `syncFormHeadValues` array of the
source, in column order; the formatted wall-clock submit time is the
explicit `submitTimeStr` parameter). -/
def mkSyncHead (fd : FormData) (submitTimeStr : Str) : SyncHeadRow where
  applicationNumber := fd.applicationNumber
  name := fd.name
  idNumber := fd.idNumber
  companyName := fd.companyName
  phoneNumber := fd.phoneNumber
  submitTime := submitTimeStr
  startDate := fd.startDate
  startTime := startTimeDisplay fd
  workingHours := workingHoursDisplay fd
  workLocation := fd.workLocation.map
    (fun v => OptionConverter.workLocation.toLabel v)
  workType := OptionConverter.workType.toLabel
    (orDefault fd.workType "quality_rework".data)
  isProductWork := fd.isProductWork.getD false
  projectName := orDefault fd.projectName []
  vehicleNumber := orDefault fd.vehicleNumber []
  trackPosition := orDefault fd.trackPosition []
  workContent := OptionConverter.workContent.toLabel
    (orDefault fd.workType "quality_rework".data) (orDefault fd.workContent [])
  workBasis := OptionConverter.workBasis.toLabel (orDefault fd.workBasis [])
  basisNumber := orDefault fd.basisNumber []
  dangerTypes := dangerTypesChineseStr fd
  notifierName := orElseStr fd.notifierName fd.name
  notifierNumber := orDefault fd.notifierNumber []
  notifierDepartment := orDefault fd.notifierDepartment []
  accompaningCount :=
    match fd.accompanyingPersons with
    | some l => l.length
    | none => 0

/-- `INSERT INTO public.safeformhead ...`. -/
def insertSyncHead (fd : FormData) (submitTimeStr : Str) (db : DB) : DB :=
  { db with syncHeads := db.syncHeads ++ [mkSyncHead fd submitTimeStr] }

/-- `INSERT INTO public.accompaningpersons ...` for one person. -/
def insertSyncPerson (p : PersonData) (fd : FormData) (db : DB) : DB :=
  { db with syncPersons := db.syncPersons ++
      [⟨fd.applicationNumber, p.name, p.idNumber, p.phoneNumber⟩] }

/-- The ordered query sequence of the submission transaction: user
SELECT (read), conditional user INSERT, primary INSERT, one INSERT per
accompanying person, the sync-head INSERT, one sync INSERT per person
(the loops run only over an existing non-empty list, exactly like the
guarded `for` loops of the source). -/
def submitQueries (fd : FormData) (submitTimeStr : Str) : List (DB → DB) :=
  [fun db => db,
   insertUserIfAbsent fd.phoneNumber fd.name,
   insertForm fd] ++
  (fd.accompanyingPersons.getD []).map (fun p => insertPerson p fd) ++
  [insertSyncHead fd submitTimeStr] ++
  (fd.accompanyingPersons.getD []).map (fun p => insertSyncPerson p fd)

/-- The transaction interpreter: queries run against the transaction
copy in order; a query that throws (index hit by the failure oracle)
aborts the whole transaction (`none`, i.e. ROLLBACK discards the copy);
reaching the end is COMMIT. -/
def runQueries : List (DB → DB) → Nat → Option Nat → DB → Option DB
  | [], _, _, tx => some tx
  | w :: ws, i, failAt, tx =>
    if failAt = some i then none else runQueries ws (i + 1) failAt (w tx)

/-- A JSON value of the route responses. -/
inductive Jsonv where
  | str (s : Str)
  | num (n : Int)
  | bool (b : Bool)
  | null
  | obj (fields : List (Str × Str))
deriving DecidableEq, Repr

/-- An HTTP response: status code plus JSON body as key/value pairs. -/
structure Resp where
  status : Nat
  body : List (Str × Jsonv)
deriving DecidableEq, Repr

/-- The friendlier top-level error of the 400 response: a single
violation is returned verbatim, several become `发现 N 个问题需要修正`. -/
def mainErrorOf (errs : FormErrors) : Str :=
  match errs.map Prod.snd with
  | [m] => m
  | ms => "发现 ".data ++ natStr ms.length ++ " 个问题需要修正".data

/-- The catch-block error mapping of the submission route: the thrown
error message is classified by substring into a user-facing
message/detail pair (the fall-through default is the generic retry
message). -/
def categorizeSubmitError (msg : Str) : Str × Str :=
  if containsSub "connect".data msg || containsSub "connection".data msg then
    ("数据库连接失败，请稍后重试".data, "系统正在维护中，请联系管理员".data)
  else if containsSub "invalid".data msg || containsSub "format".data msg then
    ("数据格式错误，请检查输入信息".data, "请确保所有必填项都已正确填写".data)
  else if containsSub "duplicate".data msg || containsSub "unique".data msg then
    ("申请编号已存在，请勿重复提交".data, "如需修改申请，请联系管理员".data)
  else if containsSub "permission".data msg || containsSub "access".data msg then
    ("权限不足，无法提交申请".data, "请联系管理员获取相应权限".data)
  else if containsSub "database".data msg || containsSub "query".data msg then
    ("数据保存失败，请重试".data, "如问题持续存在，请联系技术支持".data)
  else ("提交失败，请稍后重试".data, [])

/-- Result of one POST: the response, the store afterwards, and whether
a transaction was ever opened. -/
structure PostResult where
  resp : Resp
  db : DB
  txOpened : Bool
deriving DecidableEq, Repr

/-- The submission route `POST` handler: re-run the validator and
short-circuit with 400 before any connection/transaction work; otherwise
run the query sequence in one transaction, commit on success (200 with
the echoed application number), roll back on any query failure and map
the thrown message through the catch-block classification (500). The
failure oracle `failAt` carries the index of the query that throws and
the thrown message. -/
def runPost (today : Nat) (submitTimeStr : Str) (failAt : Option (Nat × Str))
    (db : DB) (fd : FormData) : PostResult :=
  let validationErrors := validateForm today fd
  if validationErrors.isEmpty then
    match runQueries (submitQueries fd submitTimeStr) 0 (failAt.map Prod.fst) db with
    | some tx =>
      let appNumJson :=
        match fd.applicationNumber with
        | some a => Jsonv.str a
        | none => Jsonv.null
      let resp : Resp :=
        { status := 200,
          body := [("success".data, Jsonv.bool true),
                   ("applicationNumber".data, appNumJson),
                   ("message".data, Jsonv.str "申请提交成功".data)] }
      { resp := resp, db := tx, txOpened := true }
    | none =>
      let cat := categorizeSubmitError
        (match failAt with | some f => f.2 | none => [])
      let resp : Resp :=
        { status := 500,
          body := [("error".data, Jsonv.str cat.1),
                   ("details".data, Jsonv.str cat.2),
                   ("timestamp".data, Jsonv.str submitTimeStr),
                   ("support".data, Jsonv.str "如需帮助，请联系系统管理员".data)] }
      { resp := resp, db := db, txOpened := true }
  else
    let resp : Resp :=
      { status := 400,
        body := [("error".data, Jsonv.str (mainErrorOf validationErrors)),
                 ("details".data, Jsonv.obj validationErrors),
                 ("message".data,
                   Jsonv.str "请检查并修正表单中的错误信息后重新提交".data)] }
    { resp := resp, db := db, txOpened := false }

/-- The empty store (serial counters start at 1). -/
def emptyDb : DB := ⟨[], [], [], [], [], 1, 1, 1⟩

/-- A malformed accompanying person: blank name, missing id, bad phone. -/
def badPerson : PersonData := ⟨some [], none, some "123".data⟩

/-- `sampleForm` with a declared accompanying count of 0 yet a non-empty
malformed person list. -/
def sampleWithPersons : FormData :=
  { sampleForm with accompanyingCount := some 0,
                    accompanyingPersons := some [badPerson] }

/-- A query that throws aborts the transaction: hitting any index inside
the sequence yields `none` (rollback). -/
theorem runQueries_fail :
    ∀ (ws : List (DB → DB)) (k i : Nat) (db : DB), k < ws.length →
      runQueries ws i (some (i + k)) db = none := by
  intro ws
  induction ws with
  | nil => intro k i db hk; simp at hk
  | cons w rest ih =>
    intro k i db hk
    cases k with
    | zero => simp [runQueries]
    | succ k2 =>
      have hne : (some (i + (k2 + 1)) : Option Nat) ≠ some i := by
        intro hcon
        have := Option.some.inj hcon
        omega
      rw [runQueries, if_neg hne]
      have harr : i + (k2 + 1) = (i + 1) + k2 := by omega
      rw [harr]
      exact ih k2 (i + 1) (w db) (Nat.lt_of_succ_lt_succ hk)

/-- Without a failure the transaction commits the folded writes. -/
theorem runQueries_none :
    ∀ (ws : List (DB → DB)) (i : Nat) (db : DB),
      runQueries ws i none db = some (ws.foldl (fun d w => w d) db) := by
  intro ws
  induction ws with
  | nil => intro i db; rfl
  | cons w rest ih =>
    intro i db
    rw [runQueries, if_neg (by simp), ih, List.foldl_cons]

/-- The find-or-create user step touches only `users`/`nextUserId`. -/
theorem insertUserIfAbsent_preserves (phone name : Option Str) (db : DB) :
    (insertUserIfAbsent phone name db).forms = db.forms ∧
    (insertUserIfAbsent phone name db).persons = db.persons ∧
    (insertUserIfAbsent phone name db).syncHeads = db.syncHeads ∧
    (insertUserIfAbsent phone name db).syncPersons = db.syncPersons ∧
    (insertUserIfAbsent phone name db).nextFormId = db.nextFormId := by
  unfold insertUserIfAbsent
  split <;> exact ⟨rfl, rfl, rfl, rfl, rfl⟩

/-- A predicate false on every element filters to the empty list. -/
theorem filter_none {α : Type} (p : α → Bool) :
    ∀ l : List α, (∀ a ∈ l, p a = false) → l.filter p = [] := by
  intro l h
  induction l with
  | nil => rfl
  | cons a rest ih =>
    have ha : p a = false := h a (by simp)
    rw [List.filter_cons, ha]
    simp only [Bool.false_eq_true, if_false]
    exact ih (fun x hx => h x (by simp [hx]))

/-- After the primary insert, the `RETURNING id` lookup finds the fresh
row: its id is the pre-insert `nextFormId`. -/
theorem formIdOf_insertForm (fd : FormData) (d : DB) :
    formIdOf (insertForm fd d) fd.applicationNumber = d.nextFormId := by
  unfold formIdOf insertForm
  simp [List.reverse_append, List.find?_cons, mkFormRow]

/-- Folding the per-person primary inserts leaves the other tables
untouched and adds exactly one row per person carrying the looked-up
form id. -/
theorem foldPersons_spec (fd : FormData) :
    ∀ (ps : List PersonData) (d : DB),
      (ps.foldl (fun acc p => insertPerson p fd acc) d).forms = d.forms ∧
      (ps.foldl (fun acc p => insertPerson p fd acc) d).syncHeads = d.syncHeads ∧
      (ps.foldl (fun acc p => insertPerson p fd acc) d).syncPersons = d.syncPersons ∧
      ((ps.foldl (fun acc p => insertPerson p fd acc) d).persons.filter
        (fun q => q.formId == formIdOf d fd.applicationNumber)).length =
        (d.persons.filter
          (fun q => q.formId == formIdOf d fd.applicationNumber)).length +
          ps.length := by
  intro ps
  induction ps with
  | nil => intro d; simp
  | cons p rest ih =>
    intro d
    obtain ⟨a, b, c, e⟩ := ih (insertPerson p fd d)
    have hforms : (insertPerson p fd d).forms = d.forms := rfl
    have hfid : formIdOf (insertPerson p fd d) fd.applicationNumber =
        formIdOf d fd.applicationNumber := rfl
    have hcount : ((insertPerson p fd d).persons.filter
        (fun q => q.formId == formIdOf d fd.applicationNumber)).length =
        (d.persons.filter
          (fun q => q.formId == formIdOf d fd.applicationNumber)).length + 1 := by
      show ((d.persons ++
          [(⟨d.nextPersonId, formIdOf d fd.applicationNumber,
            p.name, p.idNumber, p.phoneNumber, [], []⟩ : PersonRow)]).filter
        (fun q => q.formId == formIdOf d fd.applicationNumber)).length = _
      rw [List.filter_append]
      simp
    refine ⟨?_, ?_, ?_, ?_⟩
    · rw [List.foldl_cons, a]; exact hforms
    · rw [List.foldl_cons, b]; exact rfl
    · rw [List.foldl_cons, c]; exact rfl
    · rw [List.foldl_cons]
      rw [hfid] at e
      rw [e, hcount]
      simp only [List.length_cons]
      omega

/-- Folding the per-person sync inserts leaves the other tables untouched
and adds exactly one sync row per person carrying the application
number. -/
theorem foldSyncPersons_spec (fd : FormData) :
    ∀ (ps : List PersonData) (d : DB),
      (ps.foldl (fun acc p => insertSyncPerson p fd acc) d).forms = d.forms ∧
      (ps.foldl (fun acc p => insertSyncPerson p fd acc) d).persons = d.persons ∧
      (ps.foldl (fun acc p => insertSyncPerson p fd acc) d).syncHeads = d.syncHeads ∧
      ((ps.foldl (fun acc p => insertSyncPerson p fd acc) d).syncPersons.filter
        (fun r => r.formApplicationNumber == fd.applicationNumber)).length =
        (d.syncPersons.filter
          (fun r => r.formApplicationNumber == fd.applicationNumber)).length +
          ps.length := by
  intro ps
  induction ps with
  | nil => intro d; simp
  | cons p rest ih =>
    intro d
    obtain ⟨a, b, c, e⟩ := ih (insertSyncPerson p fd d)
    have hcount : ((insertSyncPerson p fd d).syncPersons.filter
        (fun r => r.formApplicationNumber == fd.applicationNumber)).length =
        (d.syncPersons.filter
          (fun r => r.formApplicationNumber == fd.applicationNumber)).length + 1 := by
      show ((d.syncPersons ++
          [(⟨fd.applicationNumber, p.name, p.idNumber,
              p.phoneNumber⟩ : SyncPersonRow)]).filter
        (fun r => r.formApplicationNumber == fd.applicationNumber)).length = _
      rw [List.filter_append]
      simp
    refine ⟨?_, ?_, ?_, ?_⟩
    · rw [List.foldl_cons, a]; exact rfl
    · rw [List.foldl_cons, b]; exact rfl
    · rw [List.foldl_cons, c]; exact rfl
    · rw [List.foldl_cons, e, hcount]
      simp only [List.length_cons]
      omega

/-- The committed state of a successful submission satisfies the sync
invariants: exactly one primary row and one sync-head row carry the
application number, and the accompanying-person table and its sync
mirror each gained exactly one row per submitted person. -/
theorem submit_success_counts (today : Nat) (ts : Str) (db : DB) (fd : FormData)
    (hval : validateForm today fd = [])
    (hf : ∀ r ∈ db.forms, r.applicationNumber ≠ fd.applicationNumber)
    (hh : ∀ r ∈ db.syncHeads, r.applicationNumber ≠ fd.applicationNumber)
    (hsp : ∀ r ∈ db.syncPersons, r.formApplicationNumber ≠ fd.applicationNumber)
    (hpid : ∀ p ∈ db.persons, p.formId ≠ db.nextFormId) :
    (runPost today ts none db fd).resp.status = 200 ∧
    ((runPost today ts none db fd).db.forms.filter
      (fun r => r.applicationNumber == fd.applicationNumber)).length = 1 ∧
    ((runPost today ts none db fd).db.syncHeads.filter
      (fun r => r.applicationNumber == fd.applicationNumber)).length = 1 ∧
    ((runPost today ts none db fd).db.persons.filter
      (fun q => q.formId == db.nextFormId)).length =
      (fd.accompanyingPersons.getD []).length ∧
    ((runPost today ts none db fd).db.syncPersons.filter
      (fun r => r.formApplicationNumber == fd.applicationNumber)).length =
      (fd.accompanyingPersons.getD []).length := by
  have hdb2 : (runPost today ts none db fd).db =
      (fd.accompanyingPersons.getD []).foldl
        (fun acc p => insertSyncPerson p fd acc)
        (insertSyncHead fd ts
          ((fd.accompanyingPersons.getD []).foldl
            (fun acc p => insertPerson p fd acc)
            (insertForm fd (insertUserIfAbsent fd.phoneNumber fd.name db)))) := by
    unfold runPost
    rw [hval]
    simp only [List.isEmpty_nil, if_true, Option.map_none', runQueries_none,
      submitQueries, List.foldl_append, List.foldl_map, List.foldl_cons,
      List.foldl_nil]
  have hstatus : (runPost today ts none db fd).resp.status = 200 := by
    unfold runPost
    rw [hval]
    simp only [List.isEmpty_nil, if_true, Option.map_none', runQueries_none]
  obtain ⟨hu1, hu2, hu3, hu4, hu5⟩ :=
    insertUserIfAbsent_preserves fd.phoneNumber fd.name db
  obtain ⟨hB1, hB2, hB3, hB4⟩ := foldPersons_spec fd (fd.accompanyingPersons.getD [])
    (insertForm fd (insertUserIfAbsent fd.phoneNumber fd.name db))
  obtain ⟨hD1, hD2, hD3, hD4⟩ := foldSyncPersons_spec fd
    (fd.accompanyingPersons.getD [])
    (insertSyncHead fd ts
      ((fd.accompanyingPersons.getD []).foldl
        (fun acc p => insertPerson p fd acc)
        (insertForm fd (insertUserIfAbsent fd.phoneNumber fd.name db))))
  have hC1 : ∀ d : DB, (insertSyncHead fd ts d).forms = d.forms := fun d => rfl
  have hC2 : ∀ d : DB, (insertSyncHead fd ts d).persons = d.persons := fun d => rfl
  have hC3 : ∀ d : DB, (insertSyncHead fd ts d).syncHeads =
      d.syncHeads ++ [mkSyncHead fd ts] := fun d => rfl
  have hC4 : ∀ d : DB, (insertSyncHead fd ts d).syncPersons = d.syncPersons :=
    fun d => rfl
  have hfidA : formIdOf (insertForm fd (insertUserIfAbsent fd.phoneNumber fd.name db))
      fd.applicationNumber = db.nextFormId := by
    rw [formIdOf_insertForm, hu5]
  have hA1 : (insertForm fd (insertUserIfAbsent fd.phoneNumber fd.name db)).forms =
      db.forms ++ [mkFormRow fd
        (userIdOf (insertUserIfAbsent fd.phoneNumber fd.name db) fd.phoneNumber)
        db.nextFormId] := by
    show (insertUserIfAbsent fd.phoneNumber fd.name db).forms ++
      [mkFormRow fd
        (userIdOf (insertUserIfAbsent fd.phoneNumber fd.name db) fd.phoneNumber)
        (insertUserIfAbsent fd.phoneNumber fd.name db).nextFormId] = _
    rw [hu1, hu5]
  have hA2 : (insertForm fd (insertUserIfAbsent fd.phoneNumber fd.name db)).persons =
      db.persons := hu2
  have hA3 : (insertForm fd (insertUserIfAbsent fd.phoneNumber fd.name db)).syncHeads =
      db.syncHeads := hu3
  have hA4 : (insertForm fd
      (insertUserIfAbsent fd.phoneNumber fd.name db)).syncPersons =
      db.syncPersons := hu4
  refine ⟨hstatus, ?_, ?_, ?_, ?_⟩
  · rw [hdb2, hD1, hC1, hB1, hA1, List.filter_append,
      filter_none _ db.forms (fun r hr => beq_eq_false_iff_ne.mpr (hf r hr))]
    simp [mkFormRow]
  · rw [hdb2, hD3, hC3, hB2, hA3, List.filter_append,
      filter_none _ db.syncHeads (fun r hr => beq_eq_false_iff_ne.mpr (hh r hr))]
    simp [mkSyncHead]
  · rw [hfidA] at hB4
    rw [hdb2, hD2, hC2, hB4, hA2,
      filter_none _ db.persons (fun q hq => beq_eq_false_iff_ne.mpr (hpid q hq))]
    simp
  · rw [hdb2, hD4, hC4, hB3, hA4,
      filter_none _ db.syncPersons (fun r hr => beq_eq_false_iff_ne.mpr (hsp r hr))]
    simp

/-- C1: the submission write sequence is atomic — a failure of any query
of the sequence rolls the store back to its pre-submission state (so no
primary, accompanying-person or sync row exists for the attempted
application number) — and a committed submission with a fresh
application number leaves exactly one primary row and one sync-head row
with that number, and one accompanying-person row and one sync-person
row per submitted accompanying person. -/
theorem submit_transaction_atomicity :
    (∀ (today : Nat) (ts msg : Str) (db : DB) (fd : FormData) (n : Nat),
      n < (submitQueries fd ts).length →
      (runPost today ts (some (n, msg)) db fd).db = db) ∧
    (∀ (today : Nat) (ts : Str) (db : DB) (fd : FormData),
      validateForm today fd = [] →
      (∀ r ∈ db.forms, r.applicationNumber ≠ fd.applicationNumber) →
      (∀ r ∈ db.syncHeads, r.applicationNumber ≠ fd.applicationNumber) →
      (∀ r ∈ db.syncPersons, r.formApplicationNumber ≠ fd.applicationNumber) →
      (∀ p ∈ db.persons, p.formId ≠ db.nextFormId) →
      (runPost today ts none db fd).resp.status = 200 ∧
      ((runPost today ts none db fd).db.forms.filter
        (fun r => r.applicationNumber == fd.applicationNumber)).length = 1 ∧
      ((runPost today ts none db fd).db.syncHeads.filter
        (fun r => r.applicationNumber == fd.applicationNumber)).length = 1 ∧
      ((runPost today ts none db fd).db.persons.filter
        (fun q => q.formId == db.nextFormId)).length =
        (fd.accompanyingPersons.getD []).length ∧
      ((runPost today ts none db fd).db.syncPersons.filter
        (fun r => r.formApplicationNumber == fd.applicationNumber)).length =
        (fd.accompanyingPersons.getD []).length) := by
  constructor
  · intro today ts msg db fd n hn
    unfold runPost
    cases hv : (validateForm today fd).isEmpty with
    | false => simp [hv]
    | true =>
      have hfail : runQueries (submitQueries fd ts) 0 (some n) db = none := by
        have := runQueries_fail (submitQueries fd ts) n 0 db hn
        rwa [Nat.zero_add] at this
      simp only [hv, if_true]
      rw [show ((some (n, msg) : Option (Nat × Str)).map Prod.fst) = some n from rfl,
        hfail]
  · intro today ts db fd hval hf hh hsp hpid
    exact submit_success_counts today ts db fd hval hf hh hsp hpid

/-- Witness for C1: on the empty store, submitting `sampleForm` with a
fault injected at the primary insert leaves the store unchanged, and a
fault-free submission commits with the invariant counts. -/
theorem submit_transaction_atomicity_witness :
    (2 < (submitQueries sampleForm "t".data).length ∧
      (runPost sampleToday "t".data (some (2, "boom".data)) emptyDb
        sampleForm).db = emptyDb) ∧
    (validateForm sampleToday sampleForm = [] ∧
      (runPost sampleToday "t".data none emptyDb sampleForm).resp.status = 200 ∧
      ((runPost sampleToday "t".data none emptyDb
        sampleForm).db.syncHeads.filter
        (fun r => r.applicationNumber == sampleForm.applicationNumber)).length = 1) :=
  ⟨⟨by decide,
    submit_transaction_atomicity.1 sampleToday "t".data "boom".data emptyDb
      sampleForm 2 (by decide)⟩,
   ⟨by decide,
    (submit_transaction_atomicity.2 sampleToday "t".data emptyDb sampleForm
      (by decide) (by simp [emptyDb]) (by simp [emptyDb]) (by simp [emptyDb])
      (by simp [emptyDb])).1,
    (submit_transaction_atomicity.2 sampleToday "t".data emptyDb sampleForm
      (by decide) (by simp [emptyDb]) (by simp [emptyDb]) (by simp [emptyDb])
      (by simp [emptyDb])).2.2.1⟩⟩

/-- C7: when the validator returns a non-empty error map the submit
handler short-circuits before opening a transaction: no store write
happens, the response is a 400 carrying the full field-error map as
`details`, and the top-level message is the single violated rule's text
verbatim, or the `发现 N 个问题需要修正` summary count when more than
one rule is violated. -/
theorem validation_failure_short_circuit :
    ∀ (today : Nat) (ts : Str) (failAt : Option (Nat × Str)) (db : DB)
      (fd : FormData),
      validateForm today fd ≠ [] →
      (runPost today ts failAt db fd).txOpened = false ∧
      (runPost today ts failAt db fd).db = db ∧
      (runPost today ts failAt db fd).resp.status = 400 ∧
      (runPost today ts failAt db fd).resp.body =
        [("error".data, Jsonv.str (mainErrorOf (validateForm today fd))),
         ("details".data, Jsonv.obj (validateForm today fd)),
         ("message".data,
           Jsonv.str "请检查并修正表单中的错误信息后重新提交".data)] ∧
      (∀ k m, validateForm today fd = [(k, m)] →
        mainErrorOf (validateForm today fd) = m) ∧
      (2 ≤ (validateForm today fd).length →
        mainErrorOf (validateForm today fd) =
          "发现 ".data ++ natStr (validateForm today fd).length ++
            " 个问题需要修正".data) := by
  intro today ts failAt db fd hne
  have hie : (validateForm today fd).isEmpty = false := by
    cases h : validateForm today fd with
    | nil => exact absurd h hne
    | cons a l => rfl
  refine ⟨?_, ?_, ?_, ?_, ?_, ?_⟩
  · simp [runPost, hie]
  · simp [runPost, hie]
  · simp [runPost, hie]
  · simp [runPost, hie]
  · intro k m hkm
    rw [hkm]
    rfl
  · intro h2
    cases hvf : validateForm today fd with
    | nil => simp [hvf] at h2
    | cons a l =>
      cases l with
      | nil => rw [hvf] at h2; simp at h2
      | cons b t => simp [mainErrorOf]

/-- Witness for C7: the all-missing candidate fails validation and the
handler returns 400 without touching the store or a transaction. -/
theorem validation_failure_short_circuit_witness :
    validateForm 0 emptyForm ≠ [] ∧
    (runPost 0 [] none emptyDb emptyForm).txOpened = false ∧
    (runPost 0 [] none emptyDb emptyForm).db = emptyDb ∧
    (runPost 0 [] none emptyDb emptyForm).resp.status = 400 :=
  ⟨by decide,
   (validation_failure_short_circuit 0 [] none emptyDb emptyForm (by decide)).1,
   (validation_failure_short_circuit 0 [] none emptyDb emptyForm (by decide)).2.1,
   (validation_failure_short_circuit 0 [] none emptyDb emptyForm
     (by decide)).2.2.1⟩

/-- C8: evaluation at the failing input. The derived application number
is the bare concatenation id ++ phone ++ millisecond timestamp (no
per-request entropy, so two submissions by the same user in the same
millisecond collide), and when the insert then hits a duplicate unique
key the handler performs no retry with a regenerated number: it maps the
error straight to the user-facing 500 response `申请编号已存在，请勿重复提交`
("application number already exists, do not resubmit"). -/
theorem duplicate_key_surfaced_without_retry :
    generateApplicationNumber "110101199001011234".data "13800138000".data
      1720000000000 =
      "110101199001011234138001380001720000000000".data ∧
    (runPost sampleToday []
      (some (2, "duplicate key value violates unique constraint".data))
      emptyDb sampleForm).resp.status = 500 ∧
    ("error".data, Jsonv.str "申请编号已存在，请勿重复提交".data) ∈
      (runPost sampleToday []
        (some (2, "duplicate key value violates unique constraint".data))
        emptyDb sampleForm).resp.body ∧
    (runPost sampleToday []
      (some (2, "duplicate key value violates unique constraint".data))
      emptyDb sampleForm).db = emptyDb := by
  decide

/-- C10: when the declared accompanying count is not positive the
validator runs no per-person check at all — the result does not depend
on the person list, however malformed — and a submission that passes
validation nevertheless inserts one primary and one sync
accompanying-person row for every entry of that list. -/
theorem accompanying_nonpositive_skipped_but_inserted :
    (∀ (today : Nat) (fd : FormData) (ps1 ps2 : Option (List PersonData)),
      acPositive fd.accompanyingCount = false →
      validateForm today { fd with accompanyingPersons := ps1 } =
        validateForm today { fd with accompanyingPersons := ps2 }) ∧
    (∀ (today : Nat) (ts : Str) (db : DB) (fd : FormData),
      acPositive fd.accompanyingCount = false →
      validateForm today fd = [] →
      (∀ r ∈ db.forms, r.applicationNumber ≠ fd.applicationNumber) →
      (∀ r ∈ db.syncHeads, r.applicationNumber ≠ fd.applicationNumber) →
      (∀ r ∈ db.syncPersons, r.formApplicationNumber ≠ fd.applicationNumber) →
      (∀ p ∈ db.persons, p.formId ≠ db.nextFormId) →
      ((runPost today ts none db fd).db.persons.filter
        (fun q => q.formId == db.nextFormId)).length =
        (fd.accompanyingPersons.getD []).length ∧
      ((runPost today ts none db fd).db.syncPersons.filter
        (fun r => r.formApplicationNumber == fd.applicationNumber)).length =
        (fd.accompanyingPersons.getD []).length) := by
  constructor
  · intro today fd ps1 ps2 h
    have e1 : validateForm today { fd with accompanyingPersons := ps1 } =
        checkName fd ++ checkIdNumber fd ++ checkCompanyName fd ++
        checkPhoneNumber fd ++ checkStartDate today fd ++ checkStartTime fd ++
        checkWorkingHours fd ++ checkWorkLocation fd ++ checkWorkType fd ++
        checkWorkContent fd ++ checkQualityRework fd ++ checkNotifierName fd ++
        checkNotifierNumber fd ++ checkNotifierDepartment fd ++
        checkDangerTypes fd ++
        checkAccompanying { fd with accompanyingPersons := ps1 } := rfl
    have e2 : validateForm today { fd with accompanyingPersons := ps2 } =
        checkName fd ++ checkIdNumber fd ++ checkCompanyName fd ++
        checkPhoneNumber fd ++ checkStartDate today fd ++ checkStartTime fd ++
        checkWorkingHours fd ++ checkWorkLocation fd ++ checkWorkType fd ++
        checkWorkContent fd ++ checkQualityRework fd ++ checkNotifierName fd ++
        checkNotifierNumber fd ++ checkNotifierDepartment fd ++
        checkDangerTypes fd ++
        checkAccompanying { fd with accompanyingPersons := ps2 } := rfl
    have h1 : acPositive
        ({ fd with accompanyingPersons := ps1 } : FormData).accompanyingCount =
        false := h
    have h2 : acPositive
        ({ fd with accompanyingPersons := ps2 } : FormData).accompanyingCount =
        false := h
    have hacc1 : checkAccompanying { fd with accompanyingPersons := ps1 } = [] := by
      unfold checkAccompanying
      simp [h1]
    have hacc2 : checkAccompanying { fd with accompanyingPersons := ps2 } = [] := by
      unfold checkAccompanying
      simp [h2]
    rw [e1, e2, hacc1, hacc2]
  · intro today ts db fd hac hval hf hh hsp hpid
    exact ⟨(submit_success_counts today ts db fd hval hf hh hsp hpid).2.2.2.1,
           (submit_success_counts today ts db fd hval hf hh hsp hpid).2.2.2.2⟩

/-- Witness for C10: `sampleWithPersons` declares count 0 with one
malformed person; validation passes untouched by the person list, and
the fault-free submission inserts that person's primary and sync rows. -/
theorem accompanying_nonpositive_skipped_but_inserted_witness :
    acPositive sampleWithPersons.accompanyingCount = false ∧
    validateForm sampleToday sampleWithPersons = [] ∧
    validateForm sampleToday
      { sampleWithPersons with accompanyingPersons := some [badPerson] } =
      validateForm sampleToday
        { sampleWithPersons with accompanyingPersons := none } ∧
    ((runPost sampleToday "t".data none emptyDb
      sampleWithPersons).db.persons.filter
      (fun q => q.formId == emptyDb.nextFormId)).length = 1 ∧
    ((runPost sampleToday "t".data none emptyDb
      sampleWithPersons).db.syncPersons.filter
      (fun r =>
        r.formApplicationNumber == sampleWithPersons.applicationNumber)).length =
      1 :=
  ⟨by decide, by decide,
   accompanying_nonpositive_skipped_but_inserted.1 sampleToday sampleWithPersons
     (some [badPerson]) none (by decide),
   (accompanying_nonpositive_skipped_but_inserted.2 sampleToday "t".data emptyDb
     sampleWithPersons (by decide) (by decide) (by simp [emptyDb])
     (by simp [emptyDb]) (by simp [emptyDb]) (by simp [emptyDb])).1,
   (accompanying_nonpositive_skipped_but_inserted.2 sampleToday "t".data emptyDb
     sampleWithPersons (by decide) (by decide) (by simp [emptyDb])
     (by simp [emptyDb]) (by simp [emptyDb]) (by simp [emptyDb])).2⟩

/-! ### The delete routes -/

/-- Splitting a list by a predicate preserves the total length. -/
theorem filter_length_split {α : Type} (p : α → Bool) :
    ∀ l : List α, (l.filter p).length + (l.filter (fun a => !(p a))).length =
      l.length := by
  intro l
  induction l with
  | nil => rfl
  | cons a rest ih =>
    cases ha : p a <;>
      simp only [List.filter_cons, ha, Bool.not_true, Bool.not_false,
        Bool.false_eq_true, Bool.true_eq_false, if_false, if_true,
        List.length_cons] <;> omega

/-- The single-application DELETE route
(`DELETE /api/safety/application/[application_number]`): reject an empty
number with 400; report 404 and delete nothing when no row carries the
number; otherwise delete the accompanying persons whose `form_id`
belongs to the matching rows first, then the `safe_forms` rows, in the
same transaction, and answer success with the application number (the
captured DELETE result's row count is not part of the response). -/
def deleteSinglePost (db : DB) (applicationNumber : Str) : Resp × DB :=
  if applicationNumber.isEmpty then
    ({ status := 400,
       body := [("error".data, Jsonv.str "申请编号不能为空".data)] }, db)
  else if (db.forms.filter
      (fun r => r.applicationNumber == some applicationNumber)).isEmpty then
    ({ status := 404,
       body := [("error".data, Jsonv.str "申请记录不存在".data)] }, db)
  else
    let matchingIds := (db.forms.filter
      (fun r => r.applicationNumber == some applicationNumber)).map
        (fun r => r.id)
    let keptPersons := db.persons.filter
      (fun p => !(matchingIds.contains p.formId))
    let keptForms := db.forms.filter
      (fun r => !(r.applicationNumber == some applicationNumber))
    let db2 := { db with persons := keptPersons, forms := keptForms }
    ({ status := 200,
       body := [("success".data, Jsonv.bool true),
                ("applicationNumber".data, Jsonv.str applicationNumber),
                ("message".data, Jsonv.str "申请记录已删除".data)] }, db2)

/-- The delete-all-for-user DELETE route
(`DELETE /api/safety/user/[user_id]`): reject a malformed phone with
400; otherwise delete the accompanying persons of all the user's
applications first, then the applications, in one transaction, and
answer with the `rowCount` of the application DELETE as
`deletedCount`. -/
def deleteAllForUser (db : DB) (userId : Str) : Resp × DB :=
  if !validatePhoneNumber userId then
    ({ status := 400,
       body := [("error".data, Jsonv.str "无效的手机号格式".data)] }, db)
  else
    let uids := (db.users.filter (fun u => u.phone == some userId)).map
      (fun u => u.id)
    let fids := (db.forms.filter (fun r => uids.contains r.userId)).map
      (fun r => r.id)
    let deletedCount := (db.forms.filter (fun r => uids.contains r.userId)).length
    let keptPersons := db.persons.filter (fun p => !(fids.contains p.formId))
    let keptForms := db.forms.filter (fun r => !(uids.contains r.userId))
    let db2 := { db with persons := keptPersons, forms := keptForms }
    ({ status := 200,
       body := [("success".data, Jsonv.bool true),
                ("deletedCount".data, Jsonv.num deletedCount),
                ("message".data, Jsonv.str "所有申请记录已删除".data)] }, db2)

/-- A concrete store with one application `A1` owned by one user and
three accompanying persons attached to it. -/
def cexDb : DB :=
  { users := [⟨1, some "13800138000".data, some "张三".data⟩],
    forms := [mkFormRow { sampleForm with
      applicationNumber := some "A1".data } 1 1],
    persons := [⟨1, 1, some "甲".data, none, none, [], []⟩,
                ⟨2, 1, some "乙".data, none, none, [], []⟩,
                ⟨3, 1, some "丙".data, none, none, [], []⟩],
    syncHeads := [], syncPersons := [],
    nextUserId := 2, nextFormId := 2, nextPersonId := 4 }

/-- C9: counterexample — deleting application `A1` (3 accompanying
persons) removes all 4 rows, but the success response reports NO count of
removed records: its fields are exactly success/applicationNumber/message
and none of them carries a number. -/
theorem delete_single_reports_no_count_cex :
    cexDb.forms.length = 1 ∧ cexDb.persons.length = 3 ∧
    (deleteSinglePost cexDb "A1".data).2.forms.length = 0 ∧
    (deleteSinglePost cexDb "A1".data).2.persons.length = 0 ∧
    (deleteSinglePost cexDb "A1".data).1.status = 200 ∧
    (deleteSinglePost cexDb "A1".data).1.body.map Prod.fst =
      ["success".data, "applicationNumber".data, "message".data] ∧
    ((deleteSinglePost cexDb "A1".data).1.body.all
      (fun kv => match kv.2 with | Jsonv.num _ => false | _ => true)) = true := by
  decide

/-- C9 (amended): deleting one application by number cascade-deletes its
accompanying persons first, in the same transaction, and answers success
with the application number — without reporting a removed-row count —
where the rows removed are exactly the matching application rows plus
the persons attached to them; deleting a non-existent number is a 404
no-op removing zero rows; deleting all applications of a user cascades
likewise and does report the count of deleted applications
(`deletedCount`). -/
theorem delete_cascade_amended :
    ∀ (db : DB) (appNum : Str),
      (appNum ≠ [] →
        (db.forms.filter
          (fun r => r.applicationNumber == some appNum)).isEmpty = false →
        (deleteSinglePost db appNum).1.status = 200 ∧
        (deleteSinglePost db appNum).1.body =
          [("success".data, Jsonv.bool true),
           ("applicationNumber".data, Jsonv.str appNum),
           ("message".data, Jsonv.str "申请记录已删除".data)] ∧
        (deleteSinglePost db appNum).2.forms =
          db.forms.filter (fun r => !(r.applicationNumber == some appNum)) ∧
        (deleteSinglePost db appNum).2.persons =
          db.persons.filter (fun p => !(((db.forms.filter
            (fun r => r.applicationNumber == some appNum)).map
              (fun r => r.id)).contains p.formId)) ∧
        (deleteSinglePost db appNum).2.forms.length +
          (db.forms.filter
            (fun r => r.applicationNumber == some appNum)).length =
          db.forms.length ∧
        (deleteSinglePost db appNum).2.persons.length +
          (db.persons.filter (fun p => ((db.forms.filter
            (fun r => r.applicationNumber == some appNum)).map
              (fun r => r.id)).contains p.formId)).length = db.persons.length) ∧
      (appNum ≠ [] →
        (db.forms.filter
          (fun r => r.applicationNumber == some appNum)).isEmpty = true →
        (deleteSinglePost db appNum).1.status = 404 ∧
        (deleteSinglePost db appNum).2 = db) ∧
      (∀ phone : Str, validatePhoneNumber phone = true →
        ("deletedCount".data, Jsonv.num ((db.forms.filter (fun r =>
          ((db.users.filter (fun u => u.phone == some phone)).map
            (fun u => u.id)).contains r.userId)).length : Int)) ∈
          (deleteAllForUser db phone).1.body ∧
        (deleteAllForUser db phone).2.forms.length +
          (db.forms.filter (fun r => ((db.users.filter
            (fun u => u.phone == some phone)).map
              (fun u => u.id)).contains r.userId)).length = db.forms.length ∧
        (deleteAllForUser db phone).2.persons =
          db.persons.filter (fun p => !(((db.forms.filter (fun r =>
            ((db.users.filter (fun u => u.phone == some phone)).map
              (fun u => u.id)).contains r.userId)).map
                (fun r => r.id)).contains p.formId)) ∧
        (deleteAllForUser db phone).2.persons.length +
          (db.persons.filter (fun p => ((db.forms.filter (fun r =>
            ((db.users.filter (fun u => u.phone == some phone)).map
              (fun u => u.id)).contains r.userId)).map
                (fun r => r.id)).contains p.formId)).length =
          db.persons.length) := by
  intro db appNum
  refine ⟨?_, ?_, ?_⟩
  · intro hne hpresent
    have hae : appNum.isEmpty = false := by
      cases appNum with
      | nil => exact absurd rfl hne
      | cons a s => rfl
    simp only [deleteSinglePost, hae, hpresent, Bool.false_eq_true, if_false]
    refine ⟨trivial, trivial, trivial, trivial, ?_, ?_⟩
    · have := filter_length_split
        (fun r => r.applicationNumber == some appNum) db.forms
      omega
    · have := filter_length_split
        (fun p => ((db.forms.filter
          (fun r => r.applicationNumber == some appNum)).map
            (fun r => r.id)).contains p.formId) db.persons
      omega
  · intro hne habsent
    have hae : appNum.isEmpty = false := by
      cases appNum with
      | nil => exact absurd rfl hne
      | cons a s => rfl
    simp only [deleteSinglePost, hae, habsent, Bool.false_eq_true, if_false,
      if_true]
    exact ⟨trivial, trivial⟩
  · intro phone hph
    simp only [deleteAllForUser, hph, Bool.not_true, Bool.false_eq_true,
      if_false]
    refine ⟨by simp, ?_, ?_, ?_⟩
    · have := filter_length_split
        (fun r => ((db.users.filter (fun u => u.phone == some phone)).map
          (fun u => u.id)).contains r.userId) db.forms
      omega
    · trivial
    · have := filter_length_split
        (fun p => ((db.forms.filter (fun r =>
          ((db.users.filter (fun u => u.phone == some phone)).map
            (fun u => u.id)).contains r.userId)).map
              (fun r => r.id)).contains p.formId) db.persons
      omega

/-- Witness for C9 (amended): evaluation on the concrete store with one
application and three accompanying persons. -/
theorem delete_cascade_amended_witness :
    ("A1".data : Str) ≠ [] ∧
    (cexDb.forms.filter
      (fun r => r.applicationNumber == some "A1".data)).isEmpty = false ∧
    (deleteSinglePost cexDb "A1".data).1.status = 200 ∧
    (deleteSinglePost cexDb "A1".data).2.forms.length +
      (cexDb.forms.filter
        (fun r => r.applicationNumber == some "A1".data)).length =
      cexDb.forms.length ∧
    validatePhoneNumber "13800138000".data = true ∧
    (cexDb.forms.filter (fun r =>
      ((cexDb.users.filter
        (fun u => u.phone == some "13800138000".data)).map
          (fun u => u.id)).contains r.userId)).length = 1 ∧
    ("deletedCount".data, Jsonv.num ((cexDb.forms.filter (fun r =>
      ((cexDb.users.filter
        (fun u => u.phone == some "13800138000".data)).map
          (fun u => u.id)).contains r.userId)).length : Int)) ∈
      (deleteAllForUser cexDb "13800138000".data).1.body ∧
    (deleteAllForUser cexDb "13800138000".data).2.persons.length +
      (cexDb.persons.filter (fun p => ((cexDb.forms.filter (fun r =>
        ((cexDb.users.filter
          (fun u => u.phone == some "13800138000".data)).map
            (fun u => u.id)).contains r.userId)).map
              (fun r => r.id)).contains p.formId)).length =
      cexDb.persons.length ∧
    (cexDb.persons.filter (fun p => ((cexDb.forms.filter (fun r =>
      ((cexDb.users.filter
        (fun u => u.phone == some "13800138000".data)).map
          (fun u => u.id)).contains r.userId)).map
            (fun r => r.id)).contains p.formId)).length = 3 :=
  ⟨by decide, by decide,
   ((delete_cascade_amended cexDb "A1".data).1 (by decide) (by decide)).1,
   ((delete_cascade_amended cexDb "A1".data).1 (by decide)
     (by decide)).2.2.2.2.1,
   by decide, by decide,
   ((delete_cascade_amended cexDb "A1".data).2.2 "13800138000".data
     (by decide)).1,
   ((delete_cascade_amended cexDb "A1".data).2.2 "13800138000".data
     (by decide)).2.2.2,
   by decide⟩
